import Mathlib

/-!
Verification development for the gateway dispatch handler and tiered entity
caches of the client state-synchronization engine.

The `Presences` collection, the `GatewayHandler` packet router and every
dispatch handler below are translated directly from
`src/src/collections/presences.ts`.  Collections and constants whose code is
not part of the given sources (the `Members`, `Users`, `Guilds`, `Channels`,
`Messages`, `Emojis`, `VoiceCalls`, `Relationships` and `Notes` collections,
the `ClientEvents` / `GatewayDispatchEvents` / `GatewayOpCodes` constant
tables, the structures' `merge` / `differences` methods and `client.reset`)
are modelled from the spec; each such definition carries a doc comment
saying so.

JavaScript `Map`s are embedded as association lists keyed by `String`;
object identity (reference equality) is embedded as a `ref : Nat` tag that
is allocated fresh at construction and preserved by every in-place merge.
-/

/-- Association-list store: the embedding of a JS `Map` keyed by strings. -/
abbrev Store (α : Type) : Type := List (String × α)

/-- Map lookup (`map.get`). -/
def lookup {α : Type} : Store α → String → Option α
  | [], _ => none
  | (k, v) :: rest, key => if key = k then some v else lookup rest key

/-- Map membership (`map.has`). -/
def hask {α : Type} (m : Store α) (key : String) : Bool :=
  (lookup m key).isSome

/-- Map update (`map.set`): replaces the value at an existing key in place,
otherwise appends a new binding. -/
def setk {α : Type} : Store α → String → α → Store α
  | [], key, v => [(key, v)]
  | (k, w) :: rest, key, v =>
    if key = k then (k, v) :: rest else (k, w) :: setk rest key v

/-- Map removal (`map.delete`). -/
def delk {α : Type} : Store α → String → Store α
  | [], _ => []
  | (k, v) :: rest, key =>
    if key = k then delk rest key else (k, v) :: delk rest key

/-- Two-level keyed store: `scope-key -> (entity-key -> entity)`. -/
abbrev Tiered (α : Type) : Type := Store (Store α)

/-- Auto-vivification of the outer tier (`insertCache`): create an empty
inner cache for the scope key when none exists yet. -/
def tInsertCache {α : Type} (t : Tiered α) (k : String) : Tiered α :=
  if hask t k then t else setk t k []

/-- Tiered lookup of an entity under a scope key. -/
def tGet {α : Type} (t : Tiered α) (k u : String) : Option α :=
  (lookup t k).bind (fun c => lookup c u)

/-- Tiered membership of an entity under a scope key. -/
def tHas {α : Type} (t : Tiered α) (k u : String) : Bool :=
  (tGet t k u).isSome

/-- Tiered insertion: vivify the scope tier, then set the inner key. -/
def tSet {α : Type} (t : Tiered α) (k u : String) (v : α) : Tiered α :=
  match lookup t k with
  | some c => setk t k (setk c u v)
  | none => setk t k (setk ([] : Store α) u v)

/-- Tiered removal of one inner entry. -/
def tDel {α : Type} (t : Tiered α) (k u : String) : Tiered α :=
  match lookup t k with
  | some c => setk t k (delk c u)
  | none => t

/- ### Constants -/

/-- Default cache key for scope-less presences (from the source:
`DEFAULT_PRESENCE_CACHE_KEY = '@me'`). -/
def DEFAULT_PRESENCE_CACHE_KEY : String := "@me"

/-- Modelled from the spec: the `GatewayOpCodes` table of the external socket
collaborator is not part of the sources; only the dispatch opcode is used. -/
def GatewayOpCodes.DISPATCH : Nat := 0

/-- Modelled from the spec: `ClientEvents` (the normalized outward
notification identifiers) live in a constants module outside the sources;
the spec describes them as normalized event identifiers.  Only distinctness
and the handler-to-name correspondence matter here. -/
def ClientEvents.RAW_EVENT : String := "raw"

/-- Modelled from the spec: normalized identifier for unknown events. -/
def ClientEvents.UNKNOWN : String := "unknown"

/-- Modelled from the spec: normalized gateway-ready identifier. -/
def ClientEvents.GATEWAY_READY : String := "gatewayReady"

/-- Modelled from the spec: normalized channel-delete identifier. -/
def ClientEvents.CHANNEL_DELETE : String := "channelDelete"

/-- Modelled from the spec: normalized channel-pins-update identifier. -/
def ClientEvents.CHANNEL_PINS_UPDATE : String := "channelPinsUpdate"

/-- Modelled from the spec: normalized call-update identifier. -/
def ClientEvents.CALL_UPDATE : String := "callUpdate"

/-- Modelled from the spec: normalized guild-create identifier. -/
def ClientEvents.GUILD_CREATE : String := "guildCreate"

/-- Modelled from the spec: normalized guild-delete identifier. -/
def ClientEvents.GUILD_DELETE : String := "guildDelete"

/-- Modelled from the spec: normalized guild-update identifier. -/
def ClientEvents.GUILD_UPDATE : String := "guildUpdate"

/-- Modelled from the spec: normalized guild-ban-add identifier. -/
def ClientEvents.GUILD_BAN_ADD : String := "guildBanAdd"

/-- Modelled from the spec: normalized guild-ban-remove identifier. -/
def ClientEvents.GUILD_BAN_REMOVE : String := "guildBanRemove"

/-- Modelled from the spec: normalized guild-member-update identifier. -/
def ClientEvents.GUILD_MEMBER_UPDATE : String := "guildMemberUpdate"

/-- Modelled from the spec: normalized message-reaction-remove identifier. -/
def ClientEvents.MESSAGE_REACTION_REMOVE : String := "messageReactionRemove"

/-- Modelled from the spec: normalized presence-update identifier. -/
def ClientEvents.PRESENCE_UPDATE : String := "presenceUpdate"

/- ### Entity structures

The spec treats entity field shapes as opaque records with an id and known
mergeable fields; only the fields the translated handlers touch are kept.
Each entity carries a `ref` tag embedding JS object identity: construction
allocates a fresh tag, in-place merges keep it. -/

/-- Global user entity (`User`): modelled from the spec (structure code is
an external collaborator); only identity and one mergeable field are kept. -/
structure User where
  id : String
  username : String
  ref : Nat
deriving DecidableEq

/-- Scope entity (`Guild`). -/
structure Guild where
  id : String
  name : String
  unavailable : Bool
  memberCount : Nat
  ref : Nat
deriving DecidableEq

/-- Scope-roster member entity (`Member`), composite identity
(scope-id, user-id). -/
structure Member where
  guildId : String
  userId : String
  nick : Option String
  roles : List String
  ref : Nat
deriving DecidableEq

/-- Presence entity, composite identity (scope-id-or-default-key, user-id). -/
structure Presence where
  userId : String
  guildId : Option String
  status : String
  ref : Nat
deriving DecidableEq

/-- Cache key of a presence (`presence.cacheId`): its scope id, or the
default key for scope-less presences. -/
def Presence.cacheId (p : Presence) : String :=
  p.guildId.getD DEFAULT_PRESENCE_CACHE_KEY

/-- Custom-emoji entity: stored flat, scoped by reference. -/
structure Emoji where
  id : String
  guildId : Option String
  ref : Nat
deriving DecidableEq

/-- Reaction entity, keyed by emoji identity within a message. -/
structure Reaction where
  count : Int
  me : Bool
  ref : Nat
deriving DecidableEq

/-- Message entity, owning a reaction set keyed by emoji identity. -/
structure Message where
  id : String
  channelId : String
  reactions : Store Reaction
  ref : Nat
deriving DecidableEq

/-- Channel entity (only the fields the translated handlers touch). -/
structure Channel where
  id : String
  lastPinTimestamp : Option String
  ref : Nat
deriving DecidableEq

/-- Voice-call entity, keyed by channel id. -/
structure VoiceCall where
  channelId : String
  region : String
  ref : Nat
deriving DecidableEq

/-- Relationship entity, global to the local identity. -/
structure Relationship where
  id : String
  ref : Nat
deriving DecidableEq

/- ### Raw payload shapes -/

/-- Raw user record embedded in event payloads. -/
structure RawUser where
  id : String
  username : Option String
deriving DecidableEq

/-- Raw presence payload (`GatewayRawEvents.RawPresence` /
`Types.PresenceUpdate`): fields absent from a partial payload are `none`. -/
structure RawPresence where
  user : RawUser
  guild_id : Option String
  status : String
  nick : Option String
  roles : Option (List String)
deriving DecidableEq

/-- Raw member payload (`GUILD_MEMBER_UPDATE` data, and the member stub the
presence handler builds). -/
structure RawMember where
  guild_id : String
  userId : String
  nick : Option String
  roles : List String
deriving DecidableEq

/-- Raw full guild snapshot (READY / GUILD_CREATE payload). -/
structure RawGuild where
  id : String
  name : String
  unavailable : Bool
  member_count : Nat
deriving DecidableEq

/-- GUILD_DELETE payload. -/
structure GuildDeleteData where
  id : String
  unavailable : Bool
deriving DecidableEq

/-- GUILD_UPDATE partial payload. -/
structure GuildUpdateData where
  id : String
  name : Option String
deriving DecidableEq

/-- CALL_UPDATE partial payload. -/
structure CallUpdateData where
  channel_id : String
  region : Option String
deriving DecidableEq

/-- CHANNEL_PINS_UPDATE payload. -/
structure ChannelPinsUpdateData where
  channel_id : String
  guild_id : Option String
  last_pin_timestamp : Option String
deriving DecidableEq

/-- GUILD_BAN_ADD / GUILD_BAN_REMOVE payload. -/
structure RawBan where
  guild_id : String
  user : RawUser
deriving DecidableEq

/-- Emoji identity record inside reaction payloads. -/
structure RawEmoji where
  id : Option String
  name : String
deriving DecidableEq

/-- MESSAGE_REACTION_REMOVE payload. -/
structure RawReactionEvent where
  channel_id : String
  guild_id : Option String
  message_id : String
  user_id : String
  emoji : RawEmoji
deriving DecidableEq

/-- Raw private-channel record in the READY payload. -/
structure RawChannel where
  id : String
  last_pin_timestamp : Option String
deriving DecidableEq

/-- Raw relationship record in the READY payload. -/
structure RawRelationship where
  id : String
deriving DecidableEq

/-- Self-user record of the READY payload. -/
structure ReadyUser where
  id : String
  username : Option String
  bot : Bool
deriving DecidableEq

/-- READY payload. -/
structure ReadyData where
  user : ReadyUser
  private_channels : Option (List RawChannel)
  guilds : List RawGuild
  notes : Option (List (String × String))
  presences : Option (List RawPresence)
  relationships : Option (List RawRelationship)
deriving DecidableEq

/- ### Merge and diff functions

`merge` overwrites only fields present in the partial payload and preserves
the `ref` identity tag (in-place partial-update semantics).  `differences`
is modelled from the spec: a field-level difference carrying the prior value
of each field that is present in the partial and differs. -/

/-- In-place merge of a raw user partial into a user. -/
def User.mergeRaw (u : User) (r : RawUser) : User :=
  { u with username := r.username.getD u.username }

/-- Construct a user from a raw user record (`new User(client, data)`). -/
def User.ofRaw (r : RawUser) (ref : Nat) : User :=
  { id := r.id, username := r.username.getD "", ref := ref }

/-- In-place merge of a raw presence into a presence: the payload always
carries a status and a user, an absent scope id is left untouched. -/
def Presence.mergeRaw (p : Presence) (r : RawPresence) : Presence :=
  { p with
    userId := r.user.id
    status := r.status
    guildId := match r.guild_id with | some g => some g | none => p.guildId }

/-- In-place merge of another presence instance (`old.merge(presence)`). -/
def Presence.mergeP (old : Presence) (p : Presence) : Presence :=
  { old with userId := p.userId, status := p.status, guildId := p.guildId }

/-- Construct a presence (`new Presence(client, value)`). -/
def Presence.ofRaw (r : RawPresence) (ref : Nat) : Presence :=
  { userId := r.user.id, guildId := r.guild_id, status := r.status, ref := ref }

/-- Modelled from the spec: presence field-level difference (prior status
when the incoming status differs). -/
structure PresenceDiff where
  status : Option String
deriving DecidableEq

/-- Modelled from the spec: `presence.differences(data)` over the pre-merge
snapshot. -/
def Presence.differencesOf (p : Presence) (r : RawPresence) : PresenceDiff :=
  { status := if r.status ≠ p.status then some p.status else none }

/-- In-place merge of a raw member partial into a member: the payload
carries the scope id, the embedded user, the nickname and the role list. -/
def Member.mergeRaw (m : Member) (r : RawMember) : Member :=
  { m with guildId := r.guild_id, userId := r.userId,
           nick := r.nick, roles := r.roles }

/-- Construct a member (`new Member(client, data)`). -/
def Member.ofRaw (r : RawMember) (ref : Nat) : Member :=
  { guildId := r.guild_id, userId := r.userId, nick := r.nick,
    roles := r.roles, ref := ref }

/-- Modelled from the spec: member field-level difference. -/
structure MemberDiff where
  nick : Option (Option String)
  roles : Option (List String)
deriving DecidableEq

/-- Modelled from the spec: `member.differences(data)` over the pre-merge
snapshot. -/
def Member.differencesOf (m : Member) (r : RawMember) : MemberDiff :=
  { nick := if r.nick ≠ m.nick then some m.nick else none
    roles := if r.roles ≠ m.roles then some m.roles else none }

/-- In-place merge of a full guild snapshot into a guild. -/
def Guild.mergeRaw (g : Guild) (r : RawGuild) : Guild :=
  { g with id := r.id, name := r.name, unavailable := r.unavailable,
           memberCount := r.member_count }

/-- Construct a guild from a full snapshot (`new Guild(client, raw)`). -/
def Guild.ofRaw (r : RawGuild) (ref : Nat) : Guild :=
  { id := r.id, name := r.name, unavailable := r.unavailable,
    memberCount := r.member_count, ref := ref }

/-- In-place merge of a GUILD_DELETE partial (only the unavailable flag). -/
def Guild.mergeDelete (g : Guild) (d : GuildDeleteData) : Guild :=
  { g with id := d.id, unavailable := d.unavailable }

/-- Construct a guild from a GUILD_DELETE partial. -/
def Guild.ofDelete (d : GuildDeleteData) (ref : Nat) : Guild :=
  { id := d.id, name := "", unavailable := d.unavailable,
    memberCount := 0, ref := ref }

/-- In-place merge of a GUILD_UPDATE partial. -/
def Guild.mergeUpd (g : Guild) (d : GuildUpdateData) : Guild :=
  { g with id := d.id, name := d.name.getD g.name }

/-- Construct a guild from a GUILD_UPDATE partial. -/
def Guild.ofUpd (d : GuildUpdateData) (ref : Nat) : Guild :=
  { id := d.id, name := d.name.getD "", unavailable := false,
    memberCount := 0, ref := ref }

/-- Modelled from the spec: guild field-level difference (prior value of
each field present in the partial that differs). -/
structure GuildDiff where
  name : Option String
deriving DecidableEq

/-- Modelled from the spec: `guild.differences(data)` over the pre-merge
snapshot. -/
def Guild.differencesOf (g : Guild) (d : GuildUpdateData) : GuildDiff :=
  { name :=
      match d.name with
      | some n => if n ≠ g.name then some g.name else none
      | none => none }

/-- In-place merge of a CALL_UPDATE partial into a voice call. -/
def VoiceCall.mergeUpd (c : VoiceCall) (d : CallUpdateData) : VoiceCall :=
  { c with region := d.region.getD c.region }

/-- Construct a voice call (`new VoiceCall(client, data)`). -/
def VoiceCall.ofUpd (d : CallUpdateData) (ref : Nat) : VoiceCall :=
  { channelId := d.channel_id, region := d.region.getD "", ref := ref }

/-- Modelled from the spec: voice-call field-level difference. -/
structure CallDiff where
  region : Option String
deriving DecidableEq

/-- Modelled from the spec: `call.differences(data)` over the pre-merge
snapshot. -/
def VoiceCall.differencesOf (c : VoiceCall) (d : CallUpdateData) : CallDiff :=
  { region :=
      match d.region with
      | some r => if r ≠ c.region then some c.region else none
      | none => none }

/-- In-place merge of a pins partial into a channel
(`channel.merge({last_pin_timestamp})`). -/
def Channel.mergePins (c : Channel) (ts : Option String) : Channel :=
  { c with lastPinTimestamp := ts }

/-- Construct a channel from a raw private-channel record
(`createChannelFromData`). -/
def Channel.ofRaw (r : RawChannel) (ref : Nat) : Channel :=
  { id := r.id, lastPinTimestamp := r.last_pin_timestamp, ref := ref }

/-- In-place merge of a raw private-channel record. -/
def Channel.mergeRaw (c : Channel) (r : RawChannel) : Channel :=
  { c with lastPinTimestamp := r.last_pin_timestamp }

/-- Construct a reaction from a reaction-event payload
(`new Reaction(client, data)`): the payload carries no count, so the
pre-increment fields are zero count and no self-reaction. -/
def Reaction.ofRaw (_ : RawReactionEvent) (ref : Nat) : Reaction :=
  { count := 0, me := false, ref := ref }

/- ### Client state

One record holding every repository and cache tier the translated handlers
touch, plus the per-collection configuration recognized by the spec.  The
`nextRef` counter is the allocator for identity tags. -/

/-- The mutable client cache state. -/
structure ClientState where
  user : Option User := none
  users : Store User := []
  usersEnabled : Bool := true
  guilds : Store Guild := []
  guildsEnabled : Bool := true
  members : Tiered Member := []
  membersEnabled : Bool := true
  membersStoreOffline : Bool := false
  presences : Tiered Presence := []
  presencesEnabled : Bool := true
  presencesStoreOffline : Bool := false
  channels : Store Channel := []
  channelsEnabled : Bool := true
  messages : Store Message := []
  emojis : Store Emoji := []
  voiceCalls : Store VoiceCall := []
  relationships : Store Relationship := []
  relationshipsEnabled : Bool := true
  notes : Store String := []
  notesEnabled : Bool := true
  nextRef : Nat := 0
deriving DecidableEq

/-- Fresh identity-tag allocation for a `new` entity construction. -/
def ClientState.alloc (s : ClientState) : Nat × ClientState :=
  (s.nextRef, { s with nextRef := s.nextRef + 1 })

/-- Modelled from the spec: `client.reset()` at session establishment resets
all repositories and tiers to empty (configuration and self-identity are not
collections and survive). -/
def ClientState.reset (s : ClientState) : ClientState :=
  { s with users := [], guilds := [], members := [], presences := [],
           channels := [], messages := [], emojis := [], voiceCalls := [],
           relationships := [], notes := [] }

/-- Modelled from the spec: `client.users.insert`, a flat repository insert
guarded by the collection's enabled flag (as the in-source
`TypingCollection.insert` is). -/
def ClientState.usersInsert (s : ClientState) (u : User) : ClientState :=
  if s.usersEnabled then { s with users := setk s.users u.id u } else s

/-- Modelled from the spec: `client.guilds.insert`. -/
def ClientState.guildsInsert (s : ClientState) (g : Guild) : ClientState :=
  if s.guildsEnabled then { s with guilds := setk s.guilds g.id g } else s

/-- Modelled from the spec: `client.members.insert`, a tiered-cache insert
that vivifies the scope tier and sets the entry, guarded by the enabled
flag exactly as the in-source `TypingCollection.insert` is. -/
def ClientState.membersInsert (s : ClientState) (m : Member) : ClientState :=
  if s.membersEnabled then
    { s with members := tSet s.members m.guildId m.userId m }
  else s

/-- Modelled from the spec: `client.members.delete(guildId, userId)`
removes one roster entry. -/
def ClientState.membersDelete (s : ClientState) (gid uid : String) :
    ClientState :=
  { s with members := tDel s.members gid uid }

/-- Modelled from the spec: `client.members.delete(guildId)` removes the
whole roster tier of a scope. -/
def ClientState.membersDeleteCache (s : ClientState) (gid : String) :
    ClientState :=
  { s with members := delk s.members gid }

/- ### Presences collection (translated from the source class) -/

/-- `Presences.has(cacheId, userId)`: guarded by the enabled flag, then
outer `has` and inner `has`. -/
def ClientState.presencesHas (s : ClientState) (cacheId userId : String) :
    Bool :=
  if s.presencesEnabled then tHas s.presences cacheId userId else false

/-- `Presences.get(cacheId, userId)`: guarded by the enabled flag, then
outer lookup and inner lookup. -/
def ClientState.presencesGet (s : ClientState) (cacheId userId : String) :
    Option Presence :=
  if s.presencesEnabled then tGet s.presences cacheId userId else none

/-- `Presences.delete(cacheId, userId)`: guarded by the enabled flag and the
outer key's existence. -/
def ClientState.presencesDeleteUser (s : ClientState)
    (cacheId userId : String) : ClientState :=
  if s.presencesEnabled then
    if hask s.presences cacheId then
      { s with presences := tDel s.presences cacheId userId }
    else s
  else s

/-- `Presences.delete(cacheId)`: deletes the whole cache tier, guarded by
the enabled flag and the outer key's existence. -/
def ClientState.presencesDeleteCache (s : ClientState) (cacheId : String) :
    ClientState :=
  if s.presencesEnabled then
    if hask s.presences cacheId then
      { s with presences := delk s.presences cacheId }
    else s
  else s

/-- Offline eviction step shared by `Presences.add` and `Presences.insert`:
`if (presence.fromGuild && !this.client.members.storeOffline)
   this.client.members.delete(presence.guildId, presence.user.id)`. -/
def evictOfflineMember (s : ClientState) (p : Presence) : ClientState :=
  match p.guildId, s.membersStoreOffline with
  | some g, false => s.membersDelete g p.userId
  | _, _ => s

/-- `Presences.insert(presence)` translated from the source: vivify the
cache tier, bail out when disabled, evict the offline presence (and its
member) instead of storing it, otherwise merge into the existing instance
in place or set the new one. -/
def Presences.insert (s0 : ClientState) (p : Presence) :
    ClientState × Option Presence :=
  let cacheId := p.cacheId
  let s := { s0 with presences := tInsertCache s0.presences cacheId }
  if s.presencesEnabled = false then (s, none)
  else
    let s := if p.status = "offline" then evictOfflineMember s p else s
    if p.status = "offline" ∧ s.presencesStoreOffline = false then
      (s.presencesDeleteUser cacheId p.userId, some p)
    else
      match tGet s.presences cacheId p.userId with
      | some old =>
        let merged := Presence.mergeP old p
        ({ s with presences := tSet s.presences cacheId p.userId merged },
         some merged)
      | none =>
        ({ s with presences := tSet s.presences cacheId p.userId p }, some p)

/-- `Presences.add(value)` translated from the source: vivify the cache
tier; when the key is cached, merge the raw payload into the existing
instance in place and apply the offline eviction policy; otherwise construct
a new presence and insert it. -/
def Presences.add (s0 : ClientState) (value : RawPresence) :
    ClientState × Presence :=
  let cacheId := value.guild_id.getD DEFAULT_PRESENCE_CACHE_KEY
  let s := { s0 with presences := tInsertCache s0.presences cacheId }
  match s.presencesGet cacheId value.user.id with
  | some p0 =>
    let p := p0.mergeRaw value
    let s := { s with presences := tSet s.presences cacheId value.user.id p }
    let s :=
      if p.status = "offline" then
        let s := evictOfflineMember s p
        if s.presencesStoreOffline = false then
          s.presencesDeleteUser cacheId p.userId
        else s
      else s
    (s, p)
  | none =>
    let (r, s) := s.alloc
    let p := Presence.ofRaw value r
    let (s, inserted) := Presences.insert s p
    (s, inserted.getD p)

/- ### Dispatch handlers (translated from `GatewayDispatchHandler`)

Each handler is a pure function from the client state and the raw payload to
the new state plus the emitted notification's contents.  `ls` is the list of
signals that currently have at least one registered observer
(`client.hasEventListener`), and `diffCalls` counts how many times a
`differences` computation was performed, the side channel the spec's lazy
diff property observes.  Outbound `requestGuildMembers` calls are recorded
as a list of requested scope ids. -/

/-- Pending-set insertion (`Set.add`). -/
def pendingAdd (l : List String) (x : String) : List String :=
  if x ∈ l then l else l ++ [x]

/-- Pending-set removal (`Set.delete`). -/
def pendingErase : List String → String → List String
  | [], _ => []
  | y :: rest, x => if y = x then pendingErase rest x else y :: pendingErase rest x

/-- Result of the READY handler. -/
structure ReadyRes where
  s : ClientState
  pending : List String
  requests : List String
  emitName : String
deriving DecidableEq

/-- The guilds loop of the READY handler: merge-or-create each scope; under
`shouldLoadAllMembers` (= `loadAllMembers && guildSubscriptions`), add
unavailable scopes to the pending set, and for available scopes already
pending issue a full-roster fetch when the member count exceeds the large
threshold, then clear the pending membership. -/
def readyGuilds (la gs : Bool) (th : Nat) :
    List RawGuild → ClientState × List String × List String →
    ClientState × List String × List String
  | [], acc => acc
  | raw :: rest, (s, pending, reqs) =>
    let step : Guild × ClientState :=
      match lookup s.guilds raw.id with
      | some g =>
        let g' := g.mergeRaw raw
        (g', { s with guilds := setk s.guilds raw.id g' })
      | none =>
        let (r, s2) := s.alloc
        let g := Guild.ofRaw raw r
        (g, s2.guildsInsert g)
    let guild := step.1
    let s := step.2
    let next : List String × List String :=
      if la && gs then
        if guild.unavailable then (pendingAdd pending guild.id, reqs)
        else
          if guild.id ∈ pending then
            (pendingErase pending guild.id,
             if th < guild.memberCount then reqs ++ [guild.id] else reqs)
          else (pending, reqs)
      else (pending, reqs)
    readyGuilds la gs th rest (s, next.1, next.2)

/-- The private-channels loop of the READY handler. -/
def readyChannels : List RawChannel → ClientState → ClientState
  | [], s => s
  | raw :: rest, s =>
    let s :=
      match lookup s.channels raw.id with
      | some c => { s with channels := setk s.channels raw.id (c.mergeRaw raw) }
      | none =>
        let (r, s2) := s.alloc
        let c := Channel.ofRaw raw r
        if s2.channelsEnabled then
          { s2 with channels := setk s2.channels c.id c }
        else s2
    readyChannels rest s

/-- The presences loop of the READY handler (`presences.add(raw)`). -/
def readyPresences : List RawPresence → ClientState → ClientState
  | [], s => s
  | raw :: rest, s => readyPresences rest (Presences.add s raw).1

/-- The relationships loop of the READY handler. -/
def readyRelationships : List RawRelationship → ClientState → ClientState
  | [], s => s
  | raw :: rest, s =>
    let s :=
      match lookup s.relationships raw.id with
      | some _ => s
      | none =>
        let (r, s2) := s.alloc
        let rel : Relationship := { id := raw.id, ref := r }
        if s2.relationshipsEnabled then
          { s2 with relationships := setk s2.relationships raw.id rel }
        else s2
    readyRelationships rest s

/-- The notes loop of the READY handler. -/
def readyNotes : List (String × String) → ClientState → ClientState
  | [], s => s
  | (uid, note) :: rest, s =>
    readyNotes rest { s with notes := setk s.notes uid note }

/-- The READY handler: reset every repository and tier, re-establish the
self identity, merge direct-message channels, scopes (seeding the pending
set and issuing large-scope fetches per the chunk coordinator), notes,
presences and relationships, then emit the gateway-ready notification.  The
post-bootstrap REST enrichment is an external fire-and-forget collaborator
and leaves the cache state unchanged. -/
def ready (la gs : Bool) (th : Nat) (pending : List String)
    (s0 : ClientState) (d : ReadyData) : ReadyRes :=
  let s := s0.reset
  let step : ClientState :=
    match s.user with
    | none =>
      let (r, s2) := s.alloc
      let me : User :=
        { id := d.user.id, username := d.user.username.getD "", ref := r }
      { s2 with user := some me }
    | some me =>
      { s with user := some (me.mergeRaw { id := d.user.id,
                                           username := d.user.username }) }
  let s := step
  let s :=
    match s.user with
    | some me => s.usersInsert me
    | none => s
  let s :=
    if s.channelsEnabled then
      match d.private_channels with
      | some raws => readyChannels raws s
      | none => s
    else s
  let gstep : ClientState × List String × List String :=
    if s.guildsEnabled then readyGuilds la gs th d.guilds (s, pending, [])
    else (s, pending, [])
  let s := gstep.1
  let pending := gstep.2.1
  let reqs := gstep.2.2
  let s :=
    if s.notesEnabled then
      match d.notes with
      | some raws => readyNotes raws s
      | none => s
    else s
  let s :=
    if s.presencesEnabled then
      match d.presences with
      | some raws => readyPresences raws s
      | none => s
    else s
  let s :=
    if s.relationshipsEnabled then
      match d.relationships with
      | some raws => readyRelationships raws s
      | none => s
    else s
  { s := s, pending := pending, requests := reqs,
    emitName := ClientEvents.GATEWAY_READY }

/-- Result of the GUILD_CREATE handler. -/
structure GuildCreateRes where
  s : ClientState
  pending : List String
  requests : List String
  fromUnavailable : Bool
  guild : Guild
  emitName : String
deriving DecidableEq

/-- The GUILD_CREATE handler: merge-or-create the scope (a newly created
scope is added to the pending set under `shouldLoadAllMembers`); when the
scope is pending, issue a full-roster fetch if `loadAllMembers` is set and
the member count exceeds the large threshold, and clear the pending
membership either way. -/
def guildCreate (la gs : Bool) (th : Nat) (pending : List String)
    (s0 : ClientState) (d : RawGuild) : GuildCreateRes :=
  let step : Bool × Guild × ClientState × List String :=
    match lookup s0.guilds d.id with
    | some g0 =>
      let g := g0.mergeRaw d
      (g0.unavailable, g, { s0 with guilds := setk s0.guilds d.id g }, pending)
    | none =>
      let (r, s2) := s0.alloc
      let g := Guild.ofRaw d r
      (false, g, s2.guildsInsert g,
       if la && gs then pendingAdd pending g.id else pending)
  let fromUnavailable := step.1
  let guild := step.2.1
  let s := step.2.2.1
  let pending := step.2.2.2
  let fin : List String × List String :=
    if guild.id ∈ pending then
      (pendingErase pending d.id,
       if la && th < guild.memberCount then [guild.id] else [])
    else (pending, [])
  { s := s, pending := fin.1, requests := fin.2,
    fromUnavailable := fromUnavailable, guild := guild,
    emitName := ClientEvents.GUILD_CREATE }

/-- Result of the GUILD_DELETE handler. -/
structure GuildDeleteRes where
  s : ClientState
  guild : Option Guild
  guildId : String
  isUnavailable : Bool
  emitName : String
deriving DecidableEq

/-- The flat-emoji cascade of GUILD_DELETE: the source iterates the flat
emoji repository and deletes every entry whose scope reference matches the
deleted scope, which over a `Map` is exactly a filter. -/
def emojiCascade : Store Emoji → String → Store Emoji
  | [], _ => []
  | (eid, e) :: rest, gid =>
    if e.guildId = some gid then emojiCascade rest gid
    else (eid, e) :: emojiCascade rest gid

/-- The GUILD_DELETE handler: a merely-unavailable scope is merged in a
degraded state; otherwise the scope is deleted together with its roster
tier, its presence tier and every flat emoji scoped to it by reference. -/
def guildDelete (s0 : ClientState) (d : GuildDeleteData) : GuildDeleteRes :=
  if d.unavailable then
    let step : Option Guild × ClientState :=
      match lookup s0.guilds d.id with
      | some g0 =>
        let g := g0.mergeDelete d
        (some g, { s0 with guilds := setk s0.guilds d.id g })
      | none =>
        let (r, s2) := s0.alloc
        let g := Guild.ofDelete d r
        (some g, s2.guildsInsert g)
    { s := step.2, guild := step.1, guildId := d.id, isUnavailable := true,
      emitName := ClientEvents.GUILD_DELETE }
  else
    let s := { s0 with guilds := delk s0.guilds d.id }
    let s := s.membersDeleteCache d.id
    let s := s.presencesDeleteCache d.id
    let s := { s with emojis := emojiCascade s.emojis d.id }
    { s := s, guild := none, guildId := d.id, isUnavailable := false,
      emitName := ClientEvents.GUILD_DELETE }

/-- Result of the GUILD_UPDATE handler. -/
structure GuildUpdateRes where
  s : ClientState
  differences : Option GuildDiff
  guild : Guild
  diffCalls : Nat
  emitName : String
deriving DecidableEq

/-- The GUILD_UPDATE handler: when the scope is cached, compute the lazy
diff from the pre-merge snapshot only if an observer is registered, then
merge in place; otherwise create and insert. -/
def guildUpdate (ls : List String) (s0 : ClientState) (d : GuildUpdateData) :
    GuildUpdateRes :=
  match lookup s0.guilds d.id with
  | some g0 =>
    let dstep : Option GuildDiff × Nat :=
      if ClientEvents.GUILD_UPDATE ∈ ls then (some (g0.differencesOf d), 1)
      else (none, 0)
    let g := g0.mergeUpd d
    { s := { s0 with guilds := setk s0.guilds d.id g },
      differences := dstep.1, guild := g, diffCalls := dstep.2,
      emitName := ClientEvents.GUILD_UPDATE }
  | none =>
    let (r, s2) := s0.alloc
    let g := Guild.ofUpd d r
    { s := s2.guildsInsert g, differences := none, guild := g,
      diffCalls := 0, emitName := ClientEvents.GUILD_UPDATE }

/-- Result of the CALL_UPDATE handler. -/
structure CallUpdateRes where
  s : ClientState
  differences : Option CallDiff
  call : VoiceCall
  diffCalls : Nat
  emitName : String
deriving DecidableEq

/-- The CALL_UPDATE handler: when the call is cached, compute the lazy diff
from the pre-merge snapshot only if an observer is registered, then merge in
place; otherwise create and insert. -/
def callUpdate (ls : List String) (s0 : ClientState) (d : CallUpdateData) :
    CallUpdateRes :=
  match lookup s0.voiceCalls d.channel_id with
  | some c0 =>
    let dstep : Option CallDiff × Nat :=
      if ClientEvents.CALL_UPDATE ∈ ls then (some (c0.differencesOf d), 1)
      else (none, 0)
    let c := c0.mergeUpd d
    { s := { s0 with voiceCalls := setk s0.voiceCalls d.channel_id c },
      differences := dstep.1, call := c, diffCalls := dstep.2,
      emitName := ClientEvents.CALL_UPDATE }
  | none =>
    let (r, s2) := s0.alloc
    let c := VoiceCall.ofUpd d r
    { s := { s2 with voiceCalls := setk s2.voiceCalls c.channelId c },
      differences := none, call := c, diffCalls := 0,
      emitName := ClientEvents.CALL_UPDATE }

/-- Result of the CHANNEL_PINS_UPDATE handler. -/
structure ChannelPinsRes where
  s : ClientState
  channel : Option Channel
  channelId : String
  guildId : Option String
  lastPinTimestamp : Option String
  emitName : String
deriving DecidableEq

/-- The CHANNEL_PINS_UPDATE handler, translated exactly as written in the
source: it merges the pin timestamp into the cached channel and then emits
under `ClientEvents.CHANNEL_DELETE`. -/
def channelPinsUpdate (s0 : ClientState) (d : ChannelPinsUpdateData) :
    ChannelPinsRes :=
  let step : Option Channel × ClientState :=
    match lookup s0.channels d.channel_id with
    | some c0 =>
      let c := c0.mergePins d.last_pin_timestamp
      (some c, { s0 with channels := setk s0.channels d.channel_id c })
    | none => (none, s0)
  { s := step.2, channel := step.1, channelId := d.channel_id,
    guildId := d.guild_id, lastPinTimestamp := d.last_pin_timestamp,
    emitName := ClientEvents.CHANNEL_DELETE }

/-- Result of the GUILD_BAN_ADD / GUILD_BAN_REMOVE handlers.  The emitted
`guild` field has user type because the source resolves it from the global
user repository. -/
structure GuildBanRes where
  s : ClientState
  guild : Option User
  guildId : String
  user : User
  emitName : String
deriving DecidableEq

/-- The GUILD_BAN_ADD handler: the `guild` reference of the notification is
resolved by looking the ban's guild id up in `client.users` (as the source
does); the banned user is merged in place when cached, otherwise a fresh
instance is constructed without being inserted. -/
def guildBanAdd (s0 : ClientState) (d : RawBan) : GuildBanRes :=
  let guild := lookup s0.users d.guild_id
  let step : User × ClientState :=
    match lookup s0.users d.user.id with
    | some u0 =>
      let u := u0.mergeRaw d.user
      (u, { s0 with users := setk s0.users d.user.id u })
    | none =>
      let (r, s2) := s0.alloc
      (User.ofRaw d.user r, s2)
  { s := step.2, guild := guild, guildId := d.guild_id, user := step.1,
    emitName := ClientEvents.GUILD_BAN_ADD }

/-- The GUILD_BAN_REMOVE handler: identical resolution to GUILD_BAN_ADD,
including the `client.users` lookup for the `guild` reference. -/
def guildBanRemove (s0 : ClientState) (d : RawBan) : GuildBanRes :=
  let guild := lookup s0.users d.guild_id
  let step : User × ClientState :=
    match lookup s0.users d.user.id with
    | some u0 =>
      let u := u0.mergeRaw d.user
      (u, { s0 with users := setk s0.users d.user.id u })
    | none =>
      let (r, s2) := s0.alloc
      (User.ofRaw d.user r, s2)
  { s := step.2, guild := guild, guildId := d.guild_id, user := step.1,
    emitName := ClientEvents.GUILD_BAN_REMOVE }

/-- Result of the GUILD_MEMBER_UPDATE handler. -/
structure MemberUpdateRes where
  s : ClientState
  differences : Option MemberDiff
  guildId : String
  member : Member
  diffCalls : Nat
  emitName : String
deriving DecidableEq

/-- The GUILD_MEMBER_UPDATE handler: when the member is cached, compute the
lazy diff from the pre-merge snapshot only if an observer is registered and
merge the partial into the existing instance in place; otherwise construct
and insert a fresh member. -/
def guildMemberUpdate (ls : List String) (s0 : ClientState) (d : RawMember) :
    MemberUpdateRes :=
  match tGet s0.members d.guild_id d.userId with
  | some m0 =>
    let dstep : Option MemberDiff × Nat :=
      if ClientEvents.GUILD_MEMBER_UPDATE ∈ ls then
        (some (m0.differencesOf d), 1)
      else (none, 0)
    let m := m0.mergeRaw d
    { s := { s0 with members := tSet s0.members d.guild_id d.userId m },
      differences := dstep.1, guildId := d.guild_id, member := m,
      diffCalls := dstep.2, emitName := ClientEvents.GUILD_MEMBER_UPDATE }
  | none =>
    let (r, s2) := s0.alloc
    let m := Member.ofRaw d r
    { s := s2.membersInsert m, differences := none, guildId := d.guild_id,
      member := m, diffCalls := 0,
      emitName := ClientEvents.GUILD_MEMBER_UPDATE }

/-- Result of the PRESENCE_UPDATE handler. -/
structure PresenceUpdateRes where
  s : ClientState
  differences : Option PresenceDiff
  isGuildPresence : Bool
  member : Option Member
  presence : Presence
  guildId : Option String
  emitName : String
deriving DecidableEq

/-- The PRESENCE_UPDATE handler: compute the lazy diff from the currently
cached presence when observed, run `Presences.add` (which applies the
offline eviction policy), and, when the update carries a scope id,
merge-or-create a minimal member stub from the payload's embedded fields. -/
def presenceUpdate (ls : List String) (s0 : ClientState) (d : RawPresence) :
    PresenceUpdateRes :=
  let isGuildPresence := d.guild_id.isSome
  let differences : Option PresenceDiff :=
    if ClientEvents.PRESENCE_UPDATE ∈ ls then
      let cacheId := d.guild_id.getD DEFAULT_PRESENCE_CACHE_KEY
      match s0.presencesGet cacheId d.user.id with
      | some p0 => some (p0.differencesOf d)
      | none => none
    else none
  let astep := Presences.add s0 d
  let s := astep.1
  let presence := astep.2
  let mstep : ClientState × Option Member :=
    match d.guild_id with
    | some gid =>
      let rawMember : RawMember :=
        { guild_id := gid, userId := d.user.id, nick := d.nick,
          roles := d.roles.getD [] }
      match tGet s.members gid d.user.id with
      | some m0 =>
        let m := m0.mergeRaw rawMember
        ({ s with members := tSet s.members gid d.user.id m }, some m)
      | none =>
        let (r, s2) := s.alloc
        let m := Member.ofRaw rawMember r
        (s2.membersInsert m, some m)
    | none => (s, none)
  { s := mstep.1, differences := differences,
    isGuildPresence := isGuildPresence, member := mstep.2,
    presence := presence, guildId := d.guild_id,
    emitName := ClientEvents.PRESENCE_UPDATE }

/-- Result of the MESSAGE_REACTION_REMOVE handler. -/
structure ReactionRemoveRes where
  s : ClientState
  message : Option Message
  messageId : String
  reaction : Reaction
  userId : String
  emitName : String
deriving DecidableEq

/-- The MESSAGE_REACTION_REMOVE handler, translated exactly as written in
the source: when the message and the emoji-identity key are cached, merge
`count: Math.min(count - 1, 0)` and drop the self-reaction flag when the
actor is the local identity, then delete the reaction entry when the merged
count is non-positive; an uncached message creates no entity, and the event
still emits with a fresh reaction instance. -/
def messageReactionRemove (s0 : ClientState) (d : RawReactionEvent) :
    ReactionRemoveRes :=
  let meUserId : Option String := s0.user.map (fun u => u.id)
  let emojiId := d.emoji.id.getD d.emoji.name
  let step : ClientState × Option Message × Option Reaction :=
    match lookup s0.messages d.message_id with
    | some msg0 =>
      match lookup msg0.reactions emojiId with
      | some r0 =>
        let r : Reaction :=
          { r0 with
            count := min (r0.count - 1) 0
            me := r0.me && !(meUserId = some d.user_id : Bool) }
        let msg1 := { msg0 with reactions := setk msg0.reactions emojiId r }
        let msg2 :=
          if r.count ≤ 0 then
            { msg1 with reactions := delk msg1.reactions emojiId }
          else msg1
        ({ s0 with messages := setk s0.messages d.message_id msg2 },
         some msg2, some r)
      | none => (s0, some msg0, none)
    | none => (s0, none, none)
  let fin : ClientState × Reaction :=
    match step.2.2 with
    | some r => (step.1, r)
    | none =>
      let (rf, s2) := step.1.alloc
      (s2, Reaction.ofRaw d rf)
  { s := fin.1, message := step.2.1, messageId := d.message_id,
    reaction := fin.2, userId := d.user_id,
    emitName := ClientEvents.MESSAGE_REACTION_REMOVE }

/- ### Packet router (translated from `GatewayHandler`) -/

/-- Uppercasing as `String.prototype.toUpperCase` behaves on event names,
defined structurally over the character list so it evaluates by kernel
reduction. -/
def strToUpper (s : String) : String :=
  String.mk (s.data.map Char.toUpper)

/-- The deny-list construction of the `GatewayHandler` constructor:
`new Set((options.disabledEvents || []).map(v => v.toUpperCase()))`. -/
def mkDisabledEvents (opts : List String) : List String :=
  opts.map strToUpper

/-- Router configuration (`GatewayHandler` fields relevant to routing). -/
structure GatewayHandlerCfg where
  disabledEvents : List String
  emitRawEvent : Bool
deriving DecidableEq

/-- A gateway packet (`Types.GatewayPacket`): opcode and event name; the
payload itself does not influence routing. -/
structure GatewayPacket where
  op : Nat
  t : String
deriving DecidableEq

/-- The event names for which `GatewayDispatchHandler` defines a handler
method (`getHandler` looks the event name up among these). -/
def dispatchHandlerNames : List String :=
  ["READY", "RESUMED", "ACTIVITY_JOIN_INVITE", "ACTIVITY_JOIN_REQUEST",
   "ACTIVITY_START", "BRAINTREE_POPUP_BRIDGE_CALLBACK", "CALL_CREATE",
   "CALL_DELETE", "CALL_UPDATE", "CHANNEL_CREATE", "CHANNEL_DELETE",
   "CHANNEL_PINS_ACK", "CHANNEL_PINS_UPDATE", "CHANNEL_UPDATE",
   "CHANNEL_RECIPIENT_ADD", "CHANNEL_RECIPIENT_REMOVE",
   "ENTITLEMENT_CREATE", "ENTITLEMENT_DELETE", "ENTITLEMENT_UPDATE",
   "FRIEND_SUGGESTION_CREATE", "FRIEND_SUGGESTION_DELETE",
   "GIFT_CODE_UPDATE", "GUILD_BAN_ADD", "GUILD_BAN_REMOVE", "GUILD_CREATE",
   "GUILD_DELETE", "GUILD_EMOJIS_UPDATE", "GUILD_INTEGRATIONS_UPDATE",
   "GUILD_MEMBER_ADD", "GUILD_MEMBER_LIST_UPDATE", "GUILD_MEMBER_REMOVE",
   "GUILD_MEMBER_UPDATE", "GUILD_MEMBERS_CHUNK", "GUILD_ROLE_CREATE",
   "GUILD_ROLE_DELETE", "GUILD_ROLE_UPDATE", "GUILD_UPDATE",
   "LIBRARY_APPLICATION_UPDATE", "LOBBY_CREATE", "LOBBY_DELETE",
   "LOBBY_UPDATE", "LOBBY_MEMBER_CONNECT", "LOBBY_MEMBER_DISCONNECT",
   "LOBBY_MEMBER_UPDATE", "LOBBY_MESSAGE", "LOBBY_VOICE_SERVER_UPDATE",
   "LOBBY_VOICE_STATE_UPDATE", "MESSAGE_ACK", "MESSAGE_CREATE",
   "MESSAGE_DELETE", "MESSAGE_DELETE_BULK", "MESSAGE_REACTION_ADD",
   "MESSAGE_REACTION_REMOVE", "MESSAGE_REACTION_REMOVE_ALL",
   "MESSAGE_UPDATE", "OAUTH2_TOKEN_REVOKE", "PRESENCE_UPDATE",
   "PRESENCES_REPLACE", "RECENT_MENTION_DELETE", "RELATIONSHIP_ADD",
   "RELATIONSHIP_REMOVE", "SESSIONS_UPDATE", "STREAM_CREATE",
   "STREAM_DELETE", "STREAM_SERVER_UPDATE", "STREAM_UPDATE", "TYPING_START",
   "USER_ACHIEVEMENT_UPDATE", "USER_CONNECTIONS_UPDATE",
   "USER_FEED_SETTINGS_UPDATE", "USER_GUILD_SETTINGS_UPDATE",
   "USER_NOTE_UPDATE", "USER_PAYMENT_SOURCES_UPDATE",
   "USER_PAYMENTS_UPDATE", "USER_REQUIRED_ACTION_UPDATE",
   "USER_SETTINGS_UPDATE", "USER_UPDATE", "VOICE_SERVER_UPDATE",
   "VOICE_STATE_UPDATE", "WEBHOOKS_UPDATE"]

/-- `GatewayDispatchHandler.getHandler(name)`. -/
def getHandler (name : String) : Option String :=
  if name ∈ dispatchHandlerNames then some name else none

/-- Routing outcome of one packet: which handler (if any) was invoked, and
the names of the notifications the router itself emitted. -/
structure RouteResult where
  invoked : Option String
  emissions : List String
deriving DecidableEq

/-- `GatewayHandler.onPacket` translated from the source: ignore non-dispatch
packets; optionally emit the raw passthrough; stop if the event name is in
the deny-list; otherwise invoke the handler when one exists, or emit the
unknown-event notification plus a notification named after the raw event. -/
def onPacket (cfg : GatewayHandlerCfg) (p : GatewayPacket) : RouteResult :=
  if p.op ≠ GatewayOpCodes.DISPATCH then { invoked := none, emissions := [] }
  else
    let rawEms := if cfg.emitRawEvent then [ClientEvents.RAW_EVENT] else []
    if ¬ (p.t ∈ cfg.disabledEvents) then
      match getHandler p.t with
      | some h => { invoked := some h, emissions := rawEms }
      | none =>
        { invoked := none,
          emissions := rawEms ++ [ClientEvents.UNKNOWN, p.t] }
    else { invoked := none, emissions := rawEms }

/- ### Concrete fixture states and payloads used by witness and
counterexample theorems -/

/-- Fixture: a client with user u1 cached globally, as member of scope g1
and with an online presence in scope g1; both offline-retention options are
off (the defaults). -/
def fixPresenceState : ClientState :=
  { users := [("u1", { id := "u1", username := "one", ref := 0 })],
    members := [("g1", [("u1", { guildId := "g1", userId := "u1",
                                 nick := none, roles := [], ref := 1 })])],
    presences := [("g1", [("u1", { userId := "u1", guildId := some "g1",
                                   status := "online", ref := 2 })])],
    nextRef := 3 }

/-- Fixture: a presence update carrying scope g1 and status offline for
user u1. -/
def fixOfflineUpdate : RawPresence :=
  { user := { id := "u1", username := none }, guild_id := some "g1",
    status := "offline", nick := none, roles := none }

/-- Fixture: a scope-carrying presence update with a non-offline status. -/
def fixOnlineUpdate : RawPresence :=
  { user := { id := "u1", username := none }, guild_id := some "g1",
    status := "idle", nick := none, roles := none }

/-- Fixture: a client caching message m1 whose e1 reaction has count two,
and message m2 whose e1 reaction has count zero. -/
def fixReactionState : ClientState :=
  { messages :=
      [("m1", { id := "m1", channelId := "c1",
                reactions := [("e1", { count := 2, me := false, ref := 0 })],
                ref := 1 }),
       ("m2", { id := "m2", channelId := "c1",
                reactions := [("e1", { count := 0, me := false, ref := 2 })],
                ref := 3 })],
    nextRef := 4 }

/-- Fixture: a reaction-remove event for emoji e1 on message m1. -/
def fixReactionRemove1 : RawReactionEvent :=
  { channel_id := "c1", guild_id := none, message_id := "m1",
    user_id := "u9", emoji := { id := none, name := "e1" } }

/-- Fixture: a reaction-remove event for emoji e1 on message m2. -/
def fixReactionRemove2 : RawReactionEvent :=
  { channel_id := "c1", guild_id := none, message_id := "m2",
    user_id := "u9", emoji := { id := none, name := "e1" } }

/-- Fixture: the unavailable large scope of the bootstrap scenario. -/
def fixGuildA : RawGuild :=
  { id := "gA", name := "A", unavailable := true, member_count := 5000 }

/-- Fixture: the available small scope of the bootstrap scenario. -/
def fixGuildB : RawGuild :=
  { id := "gB", name := "B", unavailable := false, member_count := 10 }

/-- Fixture: the bootstrap payload carrying the two scenario scopes. -/
def fixReadyData : ReadyData :=
  { user := { id := "me", username := some "self", bot := false },
    private_channels := none, guilds := [fixGuildA, fixGuildB],
    notes := none, presences := none, relationships := none }

/-- Fixture: a full scope snapshot above the large threshold. -/
def fixLargeGuild : RawGuild :=
  { id := "g1", name := "G", unavailable := false, member_count := 1000 }

/-- Fixture: a client caching scope g1 with roster member u1, presence u1
and two flat emojis, one scoped to g1 and one to g2. -/
def fixCascadeState : ClientState :=
  { guilds := [("g1", { id := "g1", name := "G", unavailable := false,
                        memberCount := 1, ref := 0 })],
    members := [("g1", [("u1", { guildId := "g1", userId := "u1",
                                 nick := none, roles := [], ref := 1 })])],
    presences := [("g1", [("u1", { userId := "u1", guildId := some "g1",
                                   status := "online", ref := 2 })])],
    emojis := [("e1", { id := "e1", guildId := some "g1", ref := 3 }),
               ("e2", { id := "e2", guildId := some "g2", ref := 4 })],
    nextRef := 5 }

/-- Fixture: a client caching guild g1 and voice call c1 for the lazy-diff
scenarios. -/
def fixDiffState : ClientState :=
  { guilds := [("g1", { id := "g1", name := "old", unavailable := false,
                        memberCount := 1, ref := 0 })],
    voiceCalls := [("c1", { channelId := "c1", region := "r0", ref := 1 })],
    nextRef := 2 }

/-- Fixture: a guild update renaming g1. -/
def fixGuildUpd : GuildUpdateData := { id := "g1", name := some "new" }

/-- Fixture: a call update moving c1 to another region. -/
def fixCallUpd : CallUpdateData := { channel_id := "c1", region := some "r1" }

/-- Fixture: observers registered for both update signals. -/
def fixAllListeners : List String :=
  [ClientEvents.GUILD_UPDATE, ClientEvents.CALL_UPDATE]

/-- Fixture: a pins update for channel c1. -/
def fixPinsData : ChannelPinsUpdateData :=
  { channel_id := "c1", guild_id := none, last_pin_timestamp := some "t1" }

/-- Fixture: router configuration deny-listing the event name "ready" in
lower case with raw passthrough off. -/
def fixRouterCfg : GatewayHandlerCfg :=
  { disabledEvents := mkDisabledEvents ["ready"], emitRawEvent := false }

/-- Fixture: a dispatch packet whose event name is lower-case "ready". -/
def fixReadyPacket : GatewayPacket :=
  { op := GatewayOpCodes.DISPATCH, t := "ready" }

/-- Fixture: a client caching presence (g1, u1) with identity tag five and
roster member (g1, u1) with identity tag seven. -/
def fixIdentityState : ClientState :=
  { presences := [("g1", [("u1", { userId := "u1", guildId := some "g1",
                                   status := "online", ref := 5 })])],
    members := [("g1", [("u1", { guildId := "g1", userId := "u1",
                                 nick := none, roles := [], ref := 7 })])],
    nextRef := 10 }

/-- Fixture: a member update for (g1, u1). -/
def fixMemberUpd : RawMember :=
  { guild_id := "g1", userId := "u1", nick := some "nick",
    roles := ["r1"] }

/-- Fixture: a client caching scope g1 in the guild repository while the
user repository has no entry keyed g1. -/
def fixBanState : ClientState :=
  { guilds := [("g1", { id := "g1", name := "G", unavailable := false,
                        memberCount := 1, ref := 0 })],
    users := [("u7", { id := "u7", username := "seven", ref := 1 })],
    nextRef := 2 }

/-- Fixture: a ban event in scope g1 for user u2. -/
def fixBanData : RawBan :=
  { guild_id := "g1", user := { id := "u2", username := none } }

/-- Bootstrap payload with two scopes and all optional sections absent. -/
def mkBootstrapData (u0 : ReadyUser) (gA gB : RawGuild) : ReadyData :=
  { user := u0, private_channels := none, guilds := [gA, gB], notes := none,
    presences := none, relationships := none }

/- ### Store and tiered-cache lemmas -/

theorem lookup_setk_self {α : Type} (m : Store α) (k : String) (v : α) :
    lookup (setk m k v) k = some v := by
  induction m with
  | nil => simp [setk, lookup]
  | cons hd tl ih =>
    obtain ⟨k0, v0⟩ := hd
    by_cases h : k = k0
    · simp [setk, lookup, h]
    · simp [setk, lookup, h, ih]

theorem lookup_setk_ne {α : Type} (m : Store α) {k k' : String} (v : α)
    (h : k' ≠ k) : lookup (setk m k v) k' = lookup m k' := by
  induction m with
  | nil => simp [setk, lookup, h]
  | cons hd tl ih =>
    obtain ⟨k0, v0⟩ := hd
    by_cases h0 : k = k0
    · subst h0
      simp [setk, lookup, h]
    · by_cases h1 : k' = k0
      · simp [setk, lookup, h0, h1]
      · simp [setk, lookup, h0, h1, ih]

theorem lookup_delk_self {α : Type} (m : Store α) (k : String) :
    lookup (delk m k) k = none := by
  induction m with
  | nil => simp [delk, lookup]
  | cons hd tl ih =>
    obtain ⟨k0, v0⟩ := hd
    by_cases h : k = k0
    · subst h
      simp [delk, ih]
    · simp [delk, lookup, h, ih]

theorem lookup_delk_ne {α : Type} (m : Store α) {k k' : String}
    (h : k' ≠ k) : lookup (delk m k) k' = lookup m k' := by
  induction m with
  | nil => simp [delk]
  | cons hd tl ih =>
    obtain ⟨k0, v0⟩ := hd
    by_cases h0 : k = k0
    · subst h0
      simp [delk, lookup, h, ih]
    · by_cases h1 : k' = k0
      · simp [delk, lookup, h0, h1]
      · simp [delk, lookup, h0, h1, ih]

theorem hask_delk_self {α : Type} (m : Store α) (k : String) :
    hask (delk m k) k = false := by
  simp [hask, lookup_delk_self]

theorem tGet_tSet_self {α : Type} (t : Tiered α) (k u : String) (v : α) :
    tGet (tSet t k u v) k u = some v := by
  unfold tSet tGet
  cases h : lookup t k <;>
    simp [lookup_setk_self]

theorem tGet_tDel_self {α : Type} (t : Tiered α) (k u : String) :
    tGet (tDel t k u) k u = none := by
  unfold tDel tGet
  cases h : lookup t k <;>
    simp [h, lookup_setk_self, lookup_delk_self]

theorem tGet_tInsertCache {α : Type} (t : Tiered α) (k k' u : String) :
    tGet (tInsertCache t k) k' u = tGet t k' u := by
  unfold tInsertCache tGet
  by_cases h : hask t k = true
  · simp [h]
  · simp only [h]
    by_cases h2 : k' = k
    · subst h2
      have : lookup t k' = none := by
        cases h3 : lookup t k' <;> simp [hask, h3] at h ⊢
      simp [lookup_setk_self, this, lookup]
    · simp [lookup_setk_ne _ _ h2]

theorem tGet_tDel_of_ne {α : Type} (t : Tiered α) {k k' : String}
    (u u' : String) (h : k' ≠ k) :
    tGet (tDel t k u) k' u' = tGet t k' u' := by
  unfold tDel tGet
  cases h0 : lookup t k <;> simp [lookup_setk_ne _ _ h]

theorem tGet_tDel_inner_ne {α : Type} (t : Tiered α) (k : String)
    {u u' : String} (h : u' ≠ u) :
    tGet (tDel t k u) k u' = tGet t k u' := by
  unfold tDel tGet
  cases h0 : lookup t k <;>
    simp [h0, lookup_setk_self, lookup_delk_ne _ h]

theorem emojiCascade_clears (es : Store Emoji) (gid : String) :
    ∀ p ∈ emojiCascade es gid, p.2.guildId ≠ some gid := by
  induction es with
  | nil => simp [emojiCascade]
  | cons hd tl ih =>
    obtain ⟨eid, e⟩ := hd
    by_cases h : e.guildId = some gid
    · simpa [emojiCascade, h] using ih
    · intro p hp
      simp only [emojiCascade, if_neg h, List.mem_cons] at hp
      rcases hp with hp | hp
      · subst hp
        exact h
      · exact ih p hp

theorem pendingErase_not_mem (l : List String) (x : String) :
    x ∉ pendingErase l x := by
  induction l with
  | nil => simp [pendingErase]
  | cons y rest ih =>
    by_cases h : y = x
    · simpa [pendingErase, h] using ih
    · simp only [pendingErase, if_neg h, List.mem_cons, not_or]
      exact ⟨fun hxy => h hxy.symm, ih⟩

/- ### Claim C2 -/

/-- C2: the MESSAGE_REACTION_REMOVE handler clamps with
`Math.min(count - 1, 0)`; evaluated at the failing inputs, a cached reaction
with prior count two ends at count zero with its entry deleted (the claim
demands count one with the entry retained), and a cached reaction with prior
count zero ends at count minus one, a negative count. -/
theorem reaction_remove_min_clamp_bug :
    (messageReactionRemove fixReactionState fixReactionRemove1).reaction.count = 0
    ∧ lookup (messageReactionRemove fixReactionState fixReactionRemove1).s.messages "m1"
        = some { id := "m1", channelId := "c1", reactions := [], ref := 1 }
    ∧ (messageReactionRemove fixReactionState fixReactionRemove2).reaction.count = -1 := by
  decide

/- ### Claim C7 -/

/-- C7: the CHANNEL_PINS_UPDATE handler emits its single outward
notification under the channel-delete identifier, not the
channel-pins-update identifier, evaluated at a concrete pins event. -/
theorem channel_pins_emits_channel_delete_bug :
    (channelPinsUpdate ({} : ClientState) fixPinsData).emitName
      = ClientEvents.CHANNEL_DELETE
    ∧ ClientEvents.CHANNEL_DELETE ≠ ClientEvents.CHANNEL_PINS_UPDATE := by
  decide

/- ### Claim C10 -/

/-- C10: in both ban handlers the notification's guild reference is the
result of looking the ban's guild id up in the global user repository, so it
is absent whenever that id keys no user, regardless of the guild cache. -/
theorem guild_ban_guild_from_users (s : ClientState) (d : RawBan) :
    (guildBanAdd s d).guild = lookup s.users d.guild_id
    ∧ (guildBanRemove s d).guild = lookup s.users d.guild_id
    ∧ (lookup s.users d.guild_id = none →
        (guildBanAdd s d).guild = none ∧ (guildBanRemove s d).guild = none) := by
  refine ⟨rfl, rfl, fun h => ⟨?_, ?_⟩⟩ <;>
    simpa [guildBanAdd, guildBanRemove] using h

/-- Witness for C10: with scope g1 cached in the guild repository but
absent from the user repository, the emitted guild reference is undefined. -/
theorem guild_ban_guild_from_users_witness :
    hask fixBanState.guilds "g1" = true
    ∧ lookup fixBanState.users "g1" = none
    ∧ (guildBanAdd fixBanState fixBanData).guild = none
    ∧ (guildBanRemove fixBanState fixBanData).guild = none := by
  have h := guild_ban_guild_from_users fixBanState fixBanData
  have hnone : lookup fixBanState.users "g1" = none := by decide
  exact ⟨by decide, hnone, (h.2.2 hnone).1, (h.2.2 hnone).2⟩

/- ### Claim C1 -/

/-- C1 counterexample: processing an offline presence update for user u1 in
scope g1 with both offline-retention options off does evict the presence and
leaves the user repository untouched, but the handler then re-creates a
minimal member stub, so the member keyed (g1, u1) is present afterwards —
the claim asserts it is absent. -/
theorem presence_offline_member_reinserted_cex :
    (presenceUpdate [] fixPresenceState fixOfflineUpdate).s.presencesGet "g1" "u1" = none
    ∧ tHas (presenceUpdate [] fixPresenceState fixOfflineUpdate).s.members "g1" "u1" = true
    ∧ (presenceUpdate [] fixPresenceState fixOfflineUpdate).s.users
        = fixPresenceState.users := by
  decide

/- ### Claim C3 -/

/-- C3 counterexample: the bootstrap scenario (unavailable scope gA with
member count 5000, available scope gB with member count 10, threshold 250,
bulk loading enabled) leaves gA pending but issues no fetch request at all —
the claim asserts one fetch has been issued for gA. -/
theorem ready_unavailable_no_fetch_cex :
    (ready true true 250 [] ({} : ClientState) fixReadyData).requests = []
    ∧ (ready true true 250 [] ({} : ClientState) fixReadyData).pending = ["gA"] := by
  decide

/- ### Claim C8 -/

/-- C8 counterexample: the entry "ready" of the deny-list matches the packet
name "ready" under case-insensitive comparison, yet the router does not stop:
it finds no handler for the lower-case name and emits the unknown-event
notification plus the raw-named notification, because the deny-list stores
the uppercased entry "READY" and the packet name is compared exactly. -/
theorem disabled_events_case_cex :
    fixRouterCfg.disabledEvents = ["READY"]
    ∧ strToUpper "ready" = strToUpper "READY"
    ∧ (onPacket fixRouterCfg fixReadyPacket).emissions
        = [ClientEvents.UNKNOWN, "ready"]
    ∧ (onPacket fixRouterCfg fixReadyPacket).invoked = none := by
  decide

/- ### Claim C9 -/

/-- C9 counterexample: with offline retention off, two consecutive
resolutions of the same presence key through `Presences.add` (an offline
presence that is never retained) construct and return two distinct
instances, so the same key does not always resolve to the same reference. -/
theorem identity_offline_fresh_instance_cex :
    (Presences.add ({} : ClientState) fixOfflineUpdate).2.ref
      ≠ (Presences.add (Presences.add ({} : ClientState) fixOfflineUpdate).1
          fixOfflineUpdate).2.ref := by
  decide

theorem hask_tSet_self {α : Type} (t : Tiered α) (k u : String) (v : α) :
    hask (tSet t k u v) k = true := by
  unfold tSet
  cases h : lookup t k <;> simp [hask, lookup_setk_self]

theorem hask_tInsertCache_self {α : Type} (t : Tiered α) (k : String) :
    hask (tInsertCache t k) k = true := by
  unfold tInsertCache
  by_cases h : hask t k = true
  · simp [h]
  · have h2 : (lookup t k).isSome = false := by
      simpa [hask] using h
    simp [hask, h2, lookup_setk_self]

theorem tGet_of_outer_none {α : Type} {t : Tiered α} {k : String}
    (h : lookup t k = none) (u : String) : tGet t k u = none := by
  simp [tGet, h]

theorem ev_users (s : ClientState) (p : Presence) :
    (evictOfflineMember s p).users = s.users := by
  unfold evictOfflineMember ClientState.membersDelete
  repeat' split
  all_goals rfl

theorem ev_guilds (s : ClientState) (p : Presence) :
    (evictOfflineMember s p).guilds = s.guilds := by
  unfold evictOfflineMember ClientState.membersDelete
  repeat' split
  all_goals rfl

theorem ev_presences (s : ClientState) (p : Presence) :
    (evictOfflineMember s p).presences = s.presences := by
  unfold evictOfflineMember ClientState.membersDelete
  repeat' split
  all_goals rfl

theorem ev_presencesEnabled (s : ClientState) (p : Presence) :
    (evictOfflineMember s p).presencesEnabled = s.presencesEnabled := by
  unfold evictOfflineMember ClientState.membersDelete
  repeat' split
  all_goals rfl

theorem ev_presencesStoreOffline (s : ClientState) (p : Presence) :
    (evictOfflineMember s p).presencesStoreOffline
      = s.presencesStoreOffline := by
  unfold evictOfflineMember ClientState.membersDelete
  repeat' split
  all_goals rfl

theorem ev_membersEnabled (s : ClientState) (p : Presence) :
    (evictOfflineMember s p).membersEnabled = s.membersEnabled := by
  unfold evictOfflineMember ClientState.membersDelete
  repeat' split
  all_goals rfl

theorem pdu_users (s : ClientState) (c u : String) :
    (s.presencesDeleteUser c u).users = s.users := by
  unfold ClientState.presencesDeleteUser
  repeat' split
  all_goals rfl

theorem pdu_guilds (s : ClientState) (c u : String) :
    (s.presencesDeleteUser c u).guilds = s.guilds := by
  unfold ClientState.presencesDeleteUser
  repeat' split
  all_goals rfl

theorem pdu_members (s : ClientState) (c u : String) :
    (s.presencesDeleteUser c u).members = s.members := by
  unfold ClientState.presencesDeleteUser
  repeat' split
  all_goals rfl

theorem pdu_membersEnabled (s : ClientState) (c u : String) :
    (s.presencesDeleteUser c u).membersEnabled = s.membersEnabled := by
  unfold ClientState.presencesDeleteUser
  repeat' split
  all_goals rfl

theorem pdu_presencesEnabled (s : ClientState) (c u : String) :
    (s.presencesDeleteUser c u).presencesEnabled = s.presencesEnabled := by
  unfold ClientState.presencesDeleteUser
  repeat' split
  all_goals rfl

theorem pdu_presencesStoreOffline (s : ClientState) (c u : String) :
    (s.presencesDeleteUser c u).presencesStoreOffline
      = s.presencesStoreOffline := by
  unfold ClientState.presencesDeleteUser
  repeat' split
  all_goals rfl

theorem presencesDeleteUser_get_none (s : ClientState) (c u : String) :
    (s.presencesDeleteUser c u).presencesGet c u = none := by
  unfold ClientState.presencesDeleteUser ClientState.presencesGet
  by_cases he : s.presencesEnabled = true
  · by_cases hh : hask s.presences c = true
    · simp [he, hh, tGet_tDel_self]
    · have hnone : lookup s.presences c = none := by
        cases h2 : lookup s.presences c <;> simp [hask, h2] at hh ⊢
      simp [he, hh, tGet_of_outer_none hnone]
  · simp [he]

theorem presencesGet_vivify (s : ClientState) (cid uid : String) :
    ClientState.presencesGet
        { s with presences := tInsertCache s.presences cid } cid uid
      = s.presencesGet cid uid := by
  unfold ClientState.presencesGet
  by_cases he : s.presencesEnabled = true <;> simp [he, tGet_tInsertCache]

theorem ins_users (s0 : ClientState) (p : Presence) :
    (Presences.insert s0 p).1.users = s0.users := by
  simp only [Presences.insert]
  split_ifs
  all_goals repeat' split
  all_goals simp [pdu_users, ev_users]

theorem ins_guilds (s0 : ClientState) (p : Presence) :
    (Presences.insert s0 p).1.guilds = s0.guilds := by
  simp only [Presences.insert]
  split_ifs
  all_goals repeat' split
  all_goals simp [pdu_guilds, ev_guilds]

theorem ins_membersEnabled (s0 : ClientState) (p : Presence) :
    (Presences.insert s0 p).1.membersEnabled = s0.membersEnabled := by
  simp only [Presences.insert]
  split_ifs
  all_goals repeat' split
  all_goals simp [pdu_membersEnabled, ev_membersEnabled]

theorem ins_presencesEnabled (s0 : ClientState) (p : Presence) :
    (Presences.insert s0 p).1.presencesEnabled = s0.presencesEnabled := by
  simp only [Presences.insert]
  split_ifs
  all_goals repeat' split
  all_goals simp [pdu_presencesEnabled, ev_presencesEnabled]

theorem ins_presencesStoreOffline (s0 : ClientState) (p : Presence) :
    (Presences.insert s0 p).1.presencesStoreOffline
      = s0.presencesStoreOffline := by
  simp only [Presences.insert]
  split_ifs
  all_goals repeat' split
  all_goals simp [pdu_presencesStoreOffline, ev_presencesStoreOffline]

theorem add_users (s0 : ClientState) (d : RawPresence) :
    (Presences.add s0 d).1.users = s0.users := by
  simp only [Presences.add]
  repeat' split
  all_goals simp [pdu_users, ev_users, ins_users, ClientState.alloc]

theorem add_guilds (s0 : ClientState) (d : RawPresence) :
    (Presences.add s0 d).1.guilds = s0.guilds := by
  simp only [Presences.add]
  repeat' split
  all_goals simp [pdu_guilds, ev_guilds, ins_guilds, ClientState.alloc]

theorem add_membersEnabled (s0 : ClientState) (d : RawPresence) :
    (Presences.add s0 d).1.membersEnabled = s0.membersEnabled := by
  simp only [Presences.add]
  repeat' split
  all_goals simp [pdu_membersEnabled, ev_membersEnabled, ins_membersEnabled, ClientState.alloc]

theorem add_presencesEnabled (s0 : ClientState) (d : RawPresence) :
    (Presences.add s0 d).1.presencesEnabled = s0.presencesEnabled := by
  simp only [Presences.add]
  repeat' split
  all_goals simp [pdu_presencesEnabled, ev_presencesEnabled, ins_presencesEnabled, ClientState.alloc]

theorem add_presencesStoreOffline (s0 : ClientState) (d : RawPresence) :
    (Presences.add s0 d).1.presencesStoreOffline
      = s0.presencesStoreOffline := by
  simp only [Presences.add]
  repeat' split
  all_goals simp [pdu_presencesStoreOffline, ev_presencesStoreOffline, ins_presencesStoreOffline, ClientState.alloc]

theorem ins_offline_get_none (s0 : ClientState) (p : Presence)
    (hoff : p.status = "offline") (hpo : s0.presencesStoreOffline = false) :
    (Presences.insert s0 p).1.presencesGet p.cacheId p.userId = none := by
  simp only [Presences.insert]
  split_ifs with he hc
  · simp only [ClientState.presencesGet]
    simp at he
    simp [he]
  · exact presencesDeleteUser_get_none _ p.cacheId p.userId
  · exfalso
    exact hc ⟨hoff, by simp [ev_presencesStoreOffline, hpo]⟩

theorem add_offline_get_none (s : ClientState) (d : RawPresence) (g : String)
    (hg : d.guild_id = some g) (hst : d.status = "offline")
    (hpo : s.presencesStoreOffline = false) :
    (Presences.add s d).1.presencesGet g d.user.id = none := by
  simp only [Presences.add, hg, Option.getD_some]
  split
  next p0 hk =>
    have hoff : (p0.mergeRaw d).status = "offline" := by
      simp [Presence.mergeRaw, hst]
    have huid : (p0.mergeRaw d).userId = d.user.id := by
      simp [Presence.mergeRaw]
    simp only [hoff, if_true, ev_presencesStoreOffline, hpo, huid]
    exact presencesDeleteUser_get_none _ g d.user.id
  next hk =>
    have hoff : (Presence.ofRaw d
        ({ s with presences := tInsertCache s.presences g }.alloc.1)).status
          = "offline" := by
      simp [Presence.ofRaw, hst]
    have hres := ins_offline_get_none
      ({ s with presences := tInsertCache s.presences g }.alloc.2)
      (Presence.ofRaw d
        ({ s with presences := tInsertCache s.presences g }.alloc.1))
      hoff (by simp [ClientState.alloc, hpo])
    simpa [Presence.ofRaw, Presence.cacheId, hg] using hres

/-- C1 amended: for an offline presence update carrying scope id, with the
presence cache not retaining offline entries, the presence keyed (G, U) is
absent afterwards and the global user repository is untouched — but the
handler re-creates a minimal member stub after the eviction, so (with the
roster cache enabled) the member keyed (G, U) is present, not absent. -/
theorem presence_offline_eviction_amended (ls : List String) (s : ClientState)
    (d : RawPresence) (g : String)
    (hg : d.guild_id = some g) (hst : d.status = "offline")
    (hpo : s.presencesStoreOffline = false)
    (hme : s.membersEnabled = true) :
    (presenceUpdate ls s d).s.presencesGet g d.user.id = none
    ∧ tHas (presenceUpdate ls s d).s.members g d.user.id = true
    ∧ (presenceUpdate ls s d).s.users = s.users := by
  simp only [presenceUpdate, hg]
  split
  next m0 hm0 =>
    refine ⟨?_, ?_, ?_⟩
    · exact add_offline_get_none s d g hg hst hpo
    · simp [tHas, tGet_tSet_self]
    · exact add_users s d
  next hm0 =>
    have hen : ((Presences.add s d).1.alloc.2).membersEnabled = true := by
      simp [ClientState.alloc, add_membersEnabled, hme]
    simp only [ClientState.membersInsert, hen, if_true]
    refine ⟨?_, ?_, ?_⟩
    · simpa [ClientState.presencesGet, ClientState.alloc] using
        add_offline_get_none s d g hg hst hpo
    · simp [Member.ofRaw, tHas, tGet_tSet_self]
    · simpa [ClientState.alloc] using add_users s d

theorem ev_presencesGet (s : ClientState) (p : Presence) (c u : String) :
    (evictOfflineMember s p).presencesGet c u = s.presencesGet c u := by
  unfold ClientState.presencesGet
  rw [ev_presences, ev_presencesEnabled]

theorem add_retained (s : ClientState) (d : RawPresence) (p0 : Presence)
    (hp0 : s.presencesGet (d.guild_id.getD DEFAULT_PRESENCE_CACHE_KEY)
             d.user.id = some p0)
    (hret : s.presencesStoreOffline = true ∨ d.status ≠ "offline") :
    (Presences.add s d).2 = p0.mergeRaw d
    ∧ (Presences.add s d).1.presencesGet
        (d.guild_id.getD DEFAULT_PRESENCE_CACHE_KEY) d.user.id
        = some (p0.mergeRaw d) := by
  have hS1 : ClientState.presencesGet
      { s with presences :=
          tInsertCache s.presences (d.guild_id.getD DEFAULT_PRESENCE_CACHE_KEY) }
      (d.guild_id.getD DEFAULT_PRESENCE_CACHE_KEY) d.user.id = some p0 := by
    rw [presencesGet_vivify]
    exact hp0
  have henabled : s.presencesEnabled = true := by
    by_contra hne
    simp [ClientState.presencesGet, hne] at hp0
  simp only [Presences.add]
  split
  next q hk =>
    rw [hS1] at hk
    injection hk with hq
    subst hq
    by_cases hoff : d.status = "offline"
    · rcases hret with hso | hne
      · have hcondoff : (p0.mergeRaw d).status = "offline" := by
          simp [Presence.mergeRaw, hoff]
        refine ⟨rfl, ?_⟩
        simp only [hcondoff, if_true, ev_presencesStoreOffline, hso]
        rw [if_neg (by simp)]
        rw [ev_presencesGet]
        simp [ClientState.presencesGet, henabled, tGet_tSet_self]
      · exact absurd hoff hne
    · have hcondoff : ¬((p0.mergeRaw d).status = "offline") := by
        simp [Presence.mergeRaw, hoff]
      refine ⟨rfl, ?_⟩
      simp only [hcondoff, if_false]
      simp [ClientState.presencesGet, henabled, tGet_tSet_self]
  next hk =>
    rw [hS1] at hk
    cases hk

theorem memberUpdate_retained (ls : List String) (s : ClientState)
    (dm : RawMember) (m0 : Member)
    (hm0 : tGet s.members dm.guild_id dm.userId = some m0) :
    (guildMemberUpdate ls s dm).member = m0.mergeRaw dm
    ∧ tGet (guildMemberUpdate ls s dm).s.members dm.guild_id dm.userId
        = some (m0.mergeRaw dm) := by
  simp only [guildMemberUpdate]
  split
  next q hk =>
    rw [hm0] at hk
    injection hk with hq
    subst hq
    refine ⟨rfl, ?_⟩
    simp [tGet_tSet_self]
  next hk =>
    rw [hm0] at hk
    cases hk

/-- C9 amended: identity is stable for every retained entry — a cached
presence resolved by `Presences.add` is merged in place and keeps its
identity tag across consecutive resolutions whenever it is retained (not
offline, or offline entries are stored), and a cached member resolved by
GUILD_MEMBER_UPDATE keeps its identity tag across consecutive resolutions;
the offline-evicted presence path is the exception the counterexample
shows. -/
theorem identity_stability_amended (ls : List String) (s : ClientState)
    (d : RawPresence) (p0 : Presence) (dm : RawMember) (m0 : Member)
    (hp0 : s.presencesGet (d.guild_id.getD DEFAULT_PRESENCE_CACHE_KEY)
             d.user.id = some p0)
    (hret : s.presencesStoreOffline = true ∨ d.status ≠ "offline")
    (hm0 : tGet s.members dm.guild_id dm.userId = some m0) :
    (Presences.add s d).2.ref = p0.ref
    ∧ (Presences.add (Presences.add s d).1 d).2.ref = p0.ref
    ∧ (guildMemberUpdate ls s dm).member.ref = m0.ref
    ∧ (guildMemberUpdate ls (guildMemberUpdate ls s dm).s dm).member.ref
        = m0.ref := by
  obtain ⟨h1, h2⟩ := add_retained s d p0 hp0 hret
  have hret2 : (Presences.add s d).1.presencesStoreOffline = true
      ∨ d.status ≠ "offline" := by
    rcases hret with h | h
    · exact Or.inl (by rw [add_presencesStoreOffline]; exact h)
    · exact Or.inr h
  obtain ⟨h3, h4⟩ := add_retained (Presences.add s d).1 d (p0.mergeRaw d) h2 hret2
  obtain ⟨h5, h6⟩ := memberUpdate_retained ls s dm m0 hm0
  obtain ⟨h7, h8⟩ :=
    memberUpdate_retained ls (guildMemberUpdate ls s dm).s dm (m0.mergeRaw dm) h6
  refine ⟨?_, ?_, ?_, ?_⟩
  · rw [h1]
    simp [Presence.mergeRaw]
  · rw [h3]
    simp [Presence.mergeRaw]
  · rw [h5]
    simp [Member.mergeRaw]
  · rw [h7]
    simp [Member.mergeRaw]

/-- Witness for C9 amended: the cached presence (tag five) and member
(tag seven) keep their identity across two consecutive resolutions. -/
theorem identity_stability_amended_witness :
    (Presences.add fixIdentityState fixOnlineUpdate).2.ref = 5
    ∧ (Presences.add (Presences.add fixIdentityState fixOnlineUpdate).1
        fixOnlineUpdate).2.ref = 5
    ∧ (guildMemberUpdate [] fixIdentityState fixMemberUpd).member.ref = 7
    ∧ (guildMemberUpdate []
        (guildMemberUpdate [] fixIdentityState fixMemberUpd).s
        fixMemberUpd).member.ref = 7 := by
  exact identity_stability_amended [] fixIdentityState fixOnlineUpdate
    { userId := "u1", guildId := some "g1", status := "online", ref := 5 }
    fixMemberUpd
    { guildId := "g1", userId := "u1", nick := none, roles := [], ref := 7 }
    (by decide) (Or.inr (by decide)) (by decide)

/-- Witness for C1 amended: the concrete offline scenario, with the
hypotheses discharged at the fixture state. -/
theorem presence_offline_eviction_amended_witness :
    fixOfflineUpdate.guild_id = some "g1"
    ∧ fixOfflineUpdate.status = "offline"
    ∧ fixPresenceState.presencesStoreOffline = false
    ∧ fixPresenceState.membersEnabled = true
    ∧ ((presenceUpdate [] fixPresenceState fixOfflineUpdate).s.presencesGet
          "g1" "u1" = none
       ∧ tHas (presenceUpdate [] fixPresenceState fixOfflineUpdate).s.members
          "g1" "u1" = true
       ∧ (presenceUpdate [] fixPresenceState fixOfflineUpdate).s.users
          = fixPresenceState.users) := by
  refine ⟨rfl, rfl, rfl, rfl, ?_⟩
  exact presence_offline_eviction_amended [] fixPresenceState fixOfflineUpdate
    "g1" rfl rfl rfl rfl

theorem pendingAdd_of_mem {l : List String} {x : String} (h : x ∈ l) :
    pendingAdd l x = l := by
  simp [pendingAdd, h]

theorem guildCreate_fires (gs : Bool) (th : Nat) (pending : List String)
    (s : ClientState) (d : RawGuild)
    (hge : s.guildsEnabled = true) (hp : d.id ∈ pending) :
    (guildCreate true gs th pending s d).requests
      = (if th < d.member_count then [d.id] else [])
    ∧ (guildCreate true gs th pending s d).pending = pendingErase pending d.id
    ∧ hask (guildCreate true gs th pending s d).s.guilds d.id = true := by
  cases hl : lookup s.guilds d.id with
  | some g0 =>
    have hmem : (g0.mergeRaw d).id ∈ pending := by
      simpa [Guild.mergeRaw] using hp
    simp [guildCreate, hl, hmem, hp, Guild.mergeRaw, hask, lookup_setk_self]
  | none =>
    have hpad : pendingAdd pending d.id = pending := pendingAdd_of_mem hp
    by_cases hgs : gs = true
    · simp [guildCreate, hl, hgs, hpad, Guild.ofRaw, ClientState.guildsInsert,
            ClientState.alloc, hge, hp, hask, lookup_setk_self]
    · simp [guildCreate, hl, hgs, Guild.ofRaw, ClientState.guildsInsert,
            ClientState.alloc, hge, hp, hask, lookup_setk_self]

theorem guildCreate_quiet (gs : Bool) (th : Nat) (pending : List String)
    (s : ClientState) (d : RawGuild)
    (hnp : d.id ∉ pending) (hcached : hask s.guilds d.id = true) :
    (guildCreate true gs th pending s d).requests = [] := by
  cases hl : lookup s.guilds d.id with
  | some g0 =>
    have hmem : (g0.mergeRaw d).id ∉ pending := by
      simpa [Guild.mergeRaw] using hnp
    simp [guildCreate, hl, hmem]
  | none =>
    rw [hask, hl] at hcached
    cases hcached

theorem readyGuilds_single (th : Nat) (pending : List String)
    (s : ClientState) (d : RawGuild) (hun : d.unavailable = false)
    (hp : d.id ∈ pending) :
    (readyGuilds true true th [d] (s, pending, [])).2.2
      = (if th < d.member_count then [d.id] else [])
    ∧ (readyGuilds true true th [d] (s, pending, [])).2.1
      = pendingErase pending d.id := by
  cases hl : lookup s.guilds d.id with
  | some g0 =>
    have hmem : (g0.mergeRaw d).id ∈ pending := by
      simpa [Guild.mergeRaw] using hp
    simp [readyGuilds, hl, Guild.mergeRaw, hun, hmem, hp]
  | none =>
    have hmem : (Guild.ofRaw d s.nextRef).id ∈ pending := by
      simpa [Guild.ofRaw] using hp
    simp [readyGuilds, hl, Guild.ofRaw, ClientState.alloc, hun, hmem, hp]

/-- C4: once a scope's full snapshot arrives with bulk member loading
enabled and the scope pending, exactly one full-roster fetch is issued when
the member count exceeds the large threshold and none when at or below it;
the scope leaves the pending set either way, so a second availability signal
for the same scope issues no duplicate request.  The same holds for the
bootstrap guilds loop. -/
theorem chunk_request_once (gs : Bool) (th : Nat) (pending : List String)
    (s : ClientState) (d : RawGuild)
    (hge : s.guildsEnabled = true) (hp : d.id ∈ pending) :
    (th < d.member_count →
       (guildCreate true gs th pending s d).requests = [d.id]
       ∧ (guildCreate true gs th
            (guildCreate true gs th pending s d).pending
            (guildCreate true gs th pending s d).s d).requests = [])
    ∧ (d.member_count ≤ th →
        (guildCreate true gs th pending s d).requests = [])
    ∧ d.id ∉ (guildCreate true gs th pending s d).pending
    ∧ (d.unavailable = false →
        (readyGuilds true true th [d] (s, pending, [])).2.2
          = (if th < d.member_count then [d.id] else [])
        ∧ d.id ∉ (readyGuilds true true th [d] (s, pending, [])).2.1) := by
  obtain ⟨hreq, hpend, hcache⟩ := guildCreate_fires gs th pending s d hge hp
  have hnp : d.id ∉ (guildCreate true gs th pending s d).pending := by
    rw [hpend]
    exact pendingErase_not_mem pending d.id
  refine ⟨fun hlt => ⟨?_, ?_⟩, fun hle => ?_, hnp, fun hun => ⟨?_, ?_⟩⟩
  · rw [hreq, if_pos hlt]
  · exact guildCreate_quiet gs th _ _ d hnp hcache
  · rw [hreq, if_neg (by omega)]
  · exact (readyGuilds_single th pending s d hun hp).1
  · rw [(readyGuilds_single th pending s d hun hp).2]
    exact pendingErase_not_mem pending d.id

/-- Witness for C4: a pending large scope triggers exactly one fetch on its
snapshot and none on a repeated snapshot. -/
theorem chunk_request_once_witness :
    (guildCreate true true 250 ["g1"] ({} : ClientState) fixLargeGuild).requests
      = ["g1"]
    ∧ (guildCreate true true 250
        (guildCreate true true 250 ["g1"] ({} : ClientState) fixLargeGuild).pending
        (guildCreate true true 250 ["g1"] ({} : ClientState) fixLargeGuild).s
        fixLargeGuild).requests = [] := by
  have h := chunk_request_once true 250 ["g1"] ({} : ClientState) fixLargeGuild
    rfl (by decide)
  exact h.1 (by decide)

theorem pdc_guilds (s : ClientState) (c : String) :
    (s.presencesDeleteCache c).guilds = s.guilds := by
  unfold ClientState.presencesDeleteCache
  repeat' split
  all_goals rfl

theorem pdc_members (s : ClientState) (c : String) :
    (s.presencesDeleteCache c).members = s.members := by
  unfold ClientState.presencesDeleteCache
  repeat' split
  all_goals rfl

theorem pdc_emojis (s : ClientState) (c : String) :
    (s.presencesDeleteCache c).emojis = s.emojis := by
  unfold ClientState.presencesDeleteCache
  repeat' split
  all_goals rfl

theorem pdc_presencesEnabled (s : ClientState) (c : String) :
    (s.presencesDeleteCache c).presencesEnabled = s.presencesEnabled := by
  unfold ClientState.presencesDeleteCache
  repeat' split
  all_goals rfl

theorem pdc_get_none (s : ClientState) (c u : String) :
    (s.presencesDeleteCache c).presencesGet c u = none := by
  unfold ClientState.presencesDeleteCache ClientState.presencesGet
  by_cases he : s.presencesEnabled = true
  · by_cases hh : hask s.presences c = true
    · simp [he, hh, tGet_of_outer_none (lookup_delk_self s.presences c)]
    · have hnone : lookup s.presences c = none := by
        cases h2 : lookup s.presences c <;> simp [hask, h2] at hh ⊢
      simp [he, hh, tGet_of_outer_none hnone]
  · simp [he]

theorem pdc_hask_false (s : ClientState) (c : String)
    (he : s.presencesEnabled = true) :
    hask (s.presencesDeleteCache c).presences c = false := by
  unfold ClientState.presencesDeleteCache
  by_cases hh : hask s.presences c = true
  · simp [he, hh, hask_delk_self]
  · simp only [he, if_true, hh, if_false]
    simpa using hh

/-- C5: a GUILD_DELETE not marked unavailable removes the scope from the
guild repository, deletes its whole roster tier and presence tier (so every
scope-keyed lookup for it misses), and removes every flat emoji whose scope
reference matches the deleted scope. -/
theorem guild_delete_cascade (s : ClientState) (d : GuildDeleteData)
    (hun : d.unavailable = false) (hpe : s.presencesEnabled = true) :
    hask (guildDelete s d).s.guilds d.id = false
    ∧ hask (guildDelete s d).s.members d.id = false
    ∧ (∀ u, tGet (guildDelete s d).s.members d.id u = none)
    ∧ hask (guildDelete s d).s.presences d.id = false
    ∧ (∀ u, (guildDelete s d).s.presencesGet d.id u = none)
    ∧ (∀ p ∈ (guildDelete s d).s.emojis, p.2.guildId ≠ some d.id) := by
  simp only [guildDelete, hun, Bool.false_eq_true, if_false,
    ClientState.membersDeleteCache]
  refine ⟨?_, ?_, ?_, ?_, ?_, ?_⟩
  · simpa [pdc_guilds] using hask_delk_self s.guilds d.id
  · simpa [pdc_members] using hask_delk_self s.members d.id
  · intro u
    have houter : lookup (guildDelete s d).s.members d.id = none := by
      simp only [guildDelete, hun, Bool.false_eq_true, if_false,
        ClientState.membersDeleteCache]
      simpa [pdc_members] using lookup_delk_self s.members d.id
    simp only [guildDelete, hun, Bool.false_eq_true, if_false,
      ClientState.membersDeleteCache] at houter
    exact tGet_of_outer_none houter u
  · have hpe2 : (ClientState.presencesEnabled
        { s with guilds := delk s.guilds d.id,
                 members := delk s.members d.id }) = true := hpe
    simpa using pdc_hask_false _ d.id hpe2
  · intro u
    simpa using pdc_get_none
      { s with guilds := delk s.guilds d.id, members := delk s.members d.id }
      d.id u
  · intro p hp
    have := emojiCascade_clears
      ((ClientState.presencesDeleteCache
        { s with guilds := delk s.guilds d.id,
                 members := delk s.members d.id } d.id).emojis) d.id p
    exact this (by simpa using hp)

/-- Witness for C5: deleting scope g1 at the fixture state removes the
guild, the roster tier, the presence tier and the g1-scoped emoji. -/
theorem guild_delete_cascade_witness :
    hask (guildDelete fixCascadeState
        { id := "g1", unavailable := false }).s.guilds "g1" = false
    ∧ tGet (guildDelete fixCascadeState
        { id := "g1", unavailable := false }).s.members "g1" "u1" = none
    ∧ (guildDelete fixCascadeState
        { id := "g1", unavailable := false }).s.presencesGet "g1" "u1" = none
    ∧ (∀ p ∈ (guildDelete fixCascadeState
        { id := "g1", unavailable := false }).s.emojis,
        p.2.guildId ≠ some "g1") := by
  have h := guild_delete_cascade fixCascadeState
    { id := "g1", unavailable := false } rfl rfl
  exact ⟨h.1, h.2.2.1 "u1", h.2.2.2.2.1 "u1", h.2.2.2.2.2⟩

/-- C6: update handlers compute no differences and emit a null differences
value when no observer is registered for the signal, and with an observer
registered they compute exactly one diff, taken from the entity's pre-merge
snapshot (shown for GUILD_UPDATE and CALL_UPDATE). -/
theorem lazy_diff_observed (ls : List String) (s : ClientState)
    (dg : GuildUpdateData) (dc : CallUpdateData) :
    (ClientEvents.GUILD_UPDATE ∉ ls →
       (guildUpdate ls s dg).differences = none
       ∧ (guildUpdate ls s dg).diffCalls = 0)
    ∧ (∀ g0, ClientEvents.GUILD_UPDATE ∈ ls →
        lookup s.guilds dg.id = some g0 →
       (guildUpdate ls s dg).differences = some (g0.differencesOf dg)
       ∧ (guildUpdate ls s dg).diffCalls = 1)
    ∧ (ClientEvents.CALL_UPDATE ∉ ls →
       (callUpdate ls s dc).differences = none
       ∧ (callUpdate ls s dc).diffCalls = 0)
    ∧ (∀ c0, ClientEvents.CALL_UPDATE ∈ ls →
        lookup s.voiceCalls dc.channel_id = some c0 →
       (callUpdate ls s dc).differences = some (c0.differencesOf dc)
       ∧ (callUpdate ls s dc).diffCalls = 1) := by
  refine ⟨fun hno => ?_, fun g0 hyes hl => ?_, fun hno => ?_,
          fun c0 hyes hl => ?_⟩
  · cases hl : lookup s.guilds dg.id <;> simp [guildUpdate, hl, hno]
  · simp [guildUpdate, hl, hyes]
  · cases hl : lookup s.voiceCalls dc.channel_id <;>
      simp [callUpdate, hl, hno]
  · simp [callUpdate, hl, hyes]

/-- Witness for C6: at the fixture state, no observers yields null
differences and zero diff computations; observers on both signals yield
exactly one diff computed from the pre-merge snapshot. -/
theorem lazy_diff_observed_witness :
    (guildUpdate [] fixDiffState fixGuildUpd).differences = none
    ∧ (guildUpdate [] fixDiffState fixGuildUpd).diffCalls = 0
    ∧ (callUpdate [] fixDiffState fixCallUpd).differences = none
    ∧ (callUpdate [] fixDiffState fixCallUpd).diffCalls = 0
    ∧ (guildUpdate fixAllListeners fixDiffState fixGuildUpd).differences
        = some { name := some "old" }
    ∧ (guildUpdate fixAllListeners fixDiffState fixGuildUpd).diffCalls = 1
    ∧ (callUpdate fixAllListeners fixDiffState fixCallUpd).differences
        = some { region := some "r0" }
    ∧ (callUpdate fixAllListeners fixDiffState fixCallUpd).diffCalls = 1 := by
  have h0 := lazy_diff_observed [] fixDiffState fixGuildUpd fixCallUpd
  have h1 := lazy_diff_observed fixAllListeners fixDiffState fixGuildUpd
    fixCallUpd
  have hg := h1.2.1
    { id := "g1", name := "old", unavailable := false, memberCount := 1,
      ref := 0 } (by decide) (by decide)
  have hc := h1.2.2.2
    { channelId := "c1", region := "r0", ref := 1 } (by decide) (by decide)
  exact ⟨(h0.1 (by decide)).1, (h0.1 (by decide)).2,
         (h0.2.2.1 (by decide)).1, (h0.2.2.1 (by decide)).2,
         hg.1.trans (by decide), hg.2,
         hc.1.trans (by decide), hc.2⟩

/-- C8 amended: a dispatch packet whose event name equals the uppercased
form of a configured deny-list entry (configuration is case-insensitive
because the constructor uppercases the entries; the packet name itself is
compared exactly) is suppressed after the optional raw passthrough: no
handler is invoked and no unknown-event notification is emitted. -/
theorem disabled_events_uppercase_amended (opts : List String)
    (emitRaw : Bool) (p : GatewayPacket)
    (hop : p.op = GatewayOpCodes.DISPATCH)
    (hmem : p.t ∈ mkDisabledEvents opts) :
    (onPacket { disabledEvents := mkDisabledEvents opts,
                emitRawEvent := emitRaw } p).invoked = none
    ∧ (onPacket { disabledEvents := mkDisabledEvents opts,
                  emitRawEvent := emitRaw } p).emissions
        = (if emitRaw then [ClientEvents.RAW_EVENT] else []) := by
  simp [onPacket, hop, hmem]

/-- Witness for C8 amended: the deny entry "ready" suppresses the packet
named "READY" (raw passthrough on), leaving only the raw notification. -/
theorem disabled_events_uppercase_amended_witness :
    ("READY" ∈ mkDisabledEvents ["ready"])
    ∧ (onPacket { disabledEvents := mkDisabledEvents ["ready"],
                  emitRawEvent := true }
        { op := GatewayOpCodes.DISPATCH, t := "READY" }).invoked = none
    ∧ (onPacket { disabledEvents := mkDisabledEvents ["ready"],
                  emitRawEvent := true }
        { op := GatewayOpCodes.DISPATCH, t := "READY" }).emissions
        = [ClientEvents.RAW_EVENT] := by
  have h := disabled_events_uppercase_amended ["ready"] true
    { op := GatewayOpCodes.DISPATCH, t := "READY" } rfl (by decide)
  exact ⟨by decide, h.1, h.2.trans (by decide)⟩

theorem readyGuilds_two (th : Nat) (s' : ClientState) (gA gB : RawGuild)
    (hA : gA.unavailable = true) (hB : gB.unavailable = false)
    (hne : gA.id ≠ gB.id)
    (hgA : lookup s'.guilds gA.id = none)
    (hgB : lookup s'.guilds gB.id = none)
    (hge : s'.guildsEnabled = true) :
    (readyGuilds true true th [gA, gB] (s', [], [])).2.1 = [gA.id]
    ∧ (readyGuilds true true th [gA, gB] (s', [], [])).2.2 = []
    ∧ (∃ g, lookup (readyGuilds true true th [gA, gB] (s', [], [])).1.guilds
          gB.id = some g
        ∧ g.memberCount = gB.member_count ∧ g.unavailable = false) := by
  have hne2 : gB.id ≠ gA.id := fun h => hne h.symm
  simp only [readyGuilds, hgA]
  simp only [Guild.ofRaw, ClientState.alloc, ClientState.guildsInsert, hge,
    if_true, hA]
  rw [lookup_setk_ne _ _ hne2, hgB]
  refine ⟨by simp [hB, hne2, pendingAdd], by simp [hB, hne2, pendingAdd], ?_⟩
  refine ⟨{ id := gB.id, name := gB.name, unavailable := gB.unavailable,
            memberCount := gB.member_count, ref := s'.nextRef + 1 }, ?_, rfl,
          hB⟩
  simp [hB, hne2, pendingAdd, lookup_setk_self]

/-- C3 amended: processing a bootstrap snapshot with bulk member loading
enabled adds the unavailable scope to the pending set but issues NO fetch
request for it yet (the fetch is issued later when the scope's full snapshot
arrives); the available scope at or below the threshold triggers no request
and is immediately queryable from its snapshot. -/
theorem ready_bootstrap_pending_amended (th : Nat) (s : ClientState)
    (u0 : ReadyUser) (gA gB : RawGuild)
    (hge : s.guildsEnabled = true) (hA : gA.unavailable = true)
    (hB : gB.unavailable = false) (_hBsmall : gB.member_count ≤ th)
    (hne : gA.id ≠ gB.id) :
    gA.id ∈ (ready true true th [] s (mkBootstrapData u0 gA gB)).pending
    ∧ (ready true true th [] s (mkBootstrapData u0 gA gB)).requests = []
    ∧ ∃ g, lookup (ready true true th [] s
          (mkBootstrapData u0 gA gB)).s.guilds gB.id = some g
        ∧ g.memberCount = gB.member_count ∧ g.unavailable = false := by
  have core : ∀ s1 : ClientState, s1.guilds = [] → s1.guildsEnabled = true →
      gA.id ∈ (readyGuilds true true th [gA, gB] (s1, [], [])).2.1
      ∧ (readyGuilds true true th [gA, gB] (s1, [], [])).2.2 = []
      ∧ ∃ g, lookup (readyGuilds true true th [gA, gB]
            (s1, [], [])).1.guilds gB.id = some g
          ∧ g.memberCount = gB.member_count ∧ g.unavailable = false := by
    intro s1 h1 hge1
    obtain ⟨q1, q2, q3⟩ := readyGuilds_two th s1 gA gB hA hB hne
      (by rw [h1]; rfl) (by rw [h1]; rfl) hge1
    refine ⟨by rw [q1]; exact List.mem_singleton_self _, q2, q3⟩
  cases hu : s.user with
  | none =>
    by_cases hue : s.usersEnabled = true
    · simp [ready, mkBootstrapData, ClientState.reset, hu, hue,
        ClientState.usersInsert, ClientState.alloc, ite_self, hge]
      exact core _ rfl rfl
    · simp [ready, mkBootstrapData, ClientState.reset, hu, hue,
        ClientState.usersInsert, ClientState.alloc, ite_self, hge]
      exact core _ rfl rfl
  | some me =>
    by_cases hue : s.usersEnabled = true
    · simp [ready, mkBootstrapData, ClientState.reset, hu, hue,
        ClientState.usersInsert, ClientState.alloc, ite_self, hge]
      exact core _ rfl rfl
    · simp [ready, mkBootstrapData, ClientState.reset, hu, hue,
        ClientState.usersInsert, ClientState.alloc, ite_self, hge]
      exact core _ rfl rfl

/-- Witness for C3 amended: the concrete bootstrap scenario (unavailable gA
with 5000 members, available gB with 10, threshold 250). -/
theorem ready_bootstrap_pending_amended_witness :
    "gA" ∈ (ready true true 250 [] ({} : ClientState)
        (mkBootstrapData { id := "me", username := some "self", bot := false }
          fixGuildA fixGuildB)).pending
    ∧ (ready true true 250 [] ({} : ClientState)
        (mkBootstrapData { id := "me", username := some "self", bot := false }
          fixGuildA fixGuildB)).requests = []
    ∧ ∃ g, lookup (ready true true 250 [] ({} : ClientState)
          (mkBootstrapData { id := "me", username := some "self", bot := false }
            fixGuildA fixGuildB)).s.guilds "gB" = some g
        ∧ g.memberCount = 10 ∧ g.unavailable = false := by
  have h := ready_bootstrap_pending_amended 250 ({} : ClientState)
    { id := "me", username := some "self", bot := false } fixGuildA fixGuildB
    rfl rfl rfl (by decide) (by decide)
  exact ⟨h.1, h.2.1, h.2.2⟩
